import Mathlib

/-!
# Verification of the sylman client-side form-state synchronization engine

This file gives a shallow embedding of the browser-side syllabus editor of the
sylman repository and proves (or refutes) the specification claims about it.

Conventions of the embedding:
* DOM elements are modelled at value level: an element is a record carrying its
  id, its current `value` string, and (for policy fields) its `data-policy-key`
  marker.  `document.getElementById` returns the first element with a given id.
* JavaScript strings are Lean `String`s; `String.prototype.trim()` becomes
  `jsTrim` below (defined over the character list so that idempotence is
  provable).
* JavaScript `Date` objects as used by the module manager carry only a civil
  date, modelled as a day count (days since 1970-01-01, proleptic Gregorian).
  `d.setDate(d.getDate() + k)` is day addition; `getMonth`/`getDate`/
  `getFullYear` are recovered by the standard civil-from-days conversion.
* `sessionStorage` entries are `Option String` fields of a session record.
* Fallible/absent values (`undefined`/`null`) are `Option`s; the JavaScript
  truthiness test on an id string (`if (syllabusId)`) is `jsTruthy`, which is
  false for `none` and for the empty string.
-/

/-! ## JavaScript string primitives -/

/-- Whitespace test used by `String.prototype.trim` (the characters relevant
here: space, tab, newline, carriage return, form feed, vertical tab). -/
def jsIsWs (c : Char) : Bool :=
  c = ' ' ∨ c = '\t' ∨ c = '\n' ∨ c = '\x0d' ∨ c = '\x0c' ∨ c = '\x0b'

/-- Model of `String.prototype.trim()` on the underlying character list: drop leading
and trailing whitespace. -/
def jsTrimList (l : List Char) : List Char :=
  ((l.dropWhile jsIsWs).reverse.dropWhile jsIsWs).reverse

/-- Model of `String.prototype.trim()`. -/
def jsTrim (s : String) : String :=
  ⟨jsTrimList s.data⟩

/-! ## Civil-calendar arithmetic (JavaScript `Date` as used by moduleManager)

The module manager manipulates dates only through `new Date(d)` (copy),
`getDate`/`setDate` (day-of-month with rollover, i.e. day addition) and
`getMonth`/`getDate`/`getFullYear` (civil components).  We model a date as its
day count since 1970-01-01 and convert with the standard civil-calendar
algorithms. -/

/-- Civil date components (year, month 1..12, day 1..31) from a day count
relative to 1970-01-01 (proleptic Gregorian). -/
def civilFromDays (z0 : Int) : Int × Nat × Nat :=
  let z : Int := z0 + 719468
  let era : Int := Int.fdiv z 146097
  let doe : Nat := (z - era * 146097).toNat
  let yoe : Nat := (doe - doe / 1460 + doe / 36524 - doe / 146096) / 365
  let doy : Nat := doe - (365 * yoe + yoe / 4 - yoe / 100)
  let mp : Nat := (5 * doy + 2) / 153
  let d : Nat := doy - (153 * mp + 2) / 5 + 1
  let m : Nat := if mp < 10 then mp + 3 else mp - 9
  let y : Int := era * 400 + yoe
  (if m ≤ 2 then y + 1 else y, m, d)

/-- Day count since 1970-01-01 of a civil date (inverse of `civilFromDays`). -/
def daysFromCivil (y : Int) (m d : Nat) : Int :=
  let y' : Int := if m ≤ 2 then y - 1 else y
  let era : Int := Int.fdiv y' 400
  let yoe : Nat := (y' - era * 400).toNat
  let mp : Nat := if m > 2 then m - 3 else m + 9
  let doy : Nat := (153 * mp + 2) / 5 + d - 1
  let doe : Nat := yoe * 365 + yoe / 4 - yoe / 100 + doy
  era * 146097 + (doe : Int) - 719468

/-- Left-pad a numeral to two characters with `0`, as in
`String(n).padStart(2, "0")`. -/
def pad2 (n : Nat) : String :=
  if n < 10 then "0" ++ toString n else toString n

/-- Model of `formatDate` from moduleManager: formats a date as `MM/DD/YYYY` using
`getMonth() + 1`, `getDate()` and `getFullYear()`, each day/month padded to two
digits. -/
def formatDate (z : Int) : String :=
  let c := civilFromDays z
  pad2 c.2.1 ++ "/" ++ pad2 c.2.2 ++ "/" ++ toString c.1

/-! ## Module manager (`moduleManager.js`): `addModule`, `generateModules` -/

/-- A module block as rendered into `#modulesContainer` by `addModule` /
`populateModules`: the title textarea, the read-only dates textarea's text, and
the assignment textareas inside `module{N}AssignmentsContainer`. -/
structure ModuleBlock where
  number : Int
  title : String
  datesText : String
  assignments : List String
deriving DecidableEq, Repr

/-- Model of `addModule(moduleNumber, startDate)`: computes
`moduleStartDate = startDate + (moduleNumber - 1) * 7` days and
`moduleEndDate = moduleStartDate + 6` days (via `setDate(getDate() + k)`),
renders the block with an empty title and the formatted date range, and then
`addAssignment(moduleNumber)` appends one empty assignment. -/
def addModule (moduleNumber : Int) (startDate : Int) : ModuleBlock :=
  let moduleStartDate : Int := startDate + (moduleNumber - 1) * 7
  let moduleEndDate : Int := moduleStartDate + 6
  { number := moduleNumber
    title := ""
    datesText := formatDate moduleStartDate ++ " - " ++ formatDate moduleEndDate
    assignments := [""] }

/-- The part of the DOM that `generateModules` reads and writes: the
`#moduleSelect` dropdown value (as parsed by `parseInt(·, 10)`; `none` models a
`NaN` result), the `#datePicker` value (as parsed by `new Date(·)`; `none`
models a missing or invalid date), and the `#modulesContainer` contents. -/
structure ModulesDom where
  moduleSelectCount : Option Nat
  datePicker : Option Int
  modulesContainer : List ModuleBlock
deriving DecidableEq, Repr

/-- Model of `generateModules()`: with no selected or an invalid start date it alerts
and returns without touching the DOM; otherwise it clears `#modulesContainer`
and calls `addModule(i, startDate)` for `i = 1 .. moduleCount` (no iterations
when `parseInt` yielded `NaN`). -/
def generateModules (dom : ModulesDom) : ModulesDom :=
  match dom.datePicker with
  | none => dom
  | some startDate =>
      let count := dom.moduleSelectCount.getD 0
      { dom with
        modulesContainer := (List.range count).map (fun i => addModule (i + 1 : Nat) startDate) }

/-! ## SLO cell (`formUtils.js`: `addSLOInput`) -/

/-- One SLO group inside an `.slo-cell`: a wrapper div holding a single
textarea (with its placeholder and value) and a remove button. -/
structure SloGroup where
  placeholder : String
  value : String
deriving DecidableEq, Repr

/-- An `.slo-cell` table cell: its `data-slo-index` attribute and its SLO
groups in document order (the `.addOutcomeButton` is kept as the last child and
is left implicit). -/
structure SloCell where
  sloIndex : Nat
  groups : List SloGroup
deriving DecidableEq, Repr

/-- Model of `addSLOInput(sloCell, outcomeIndex, sloIndex, value)`: collects the
placeholders of all textareas already under the cell; if `SLO o.s` is among
them the add is rejected (warn and return, DOM untouched); otherwise a new
group is inserted before the add button, i.e. appended after the existing
groups. -/
def addSLOInput (cell : SloCell) (outcomeIndex sloIndex : Nat) (value : String) : SloCell :=
  let existingPlaceholders := cell.groups.map (·.placeholder)
  let newPlaceholder := s!"SLO {outcomeIndex}.{sloIndex}"
  if existingPlaceholders.contains newPlaceholder then
    cell
  else
    { cell with groups := cell.groups ++ [{ placeholder := newPlaceholder, value := value }] }

/-! ## Weighting table (`eventInit.js`: `updateTotalWeight`) -/

/-- One `input` inside the `#weightingDetailsTable` body: its `name` attribute
and its parsed numeric value (`parseFloat(input.value)`; `none` models `NaN`
from a non-numeric value, and `parseFloat(v) || 0` is `(value.getD 0)`).
Weights are modelled as integers, which covers percentage inputs; the
JavaScript number-to-string conversion used in the display agrees with integer
printing on this domain. -/
structure WeightInput where
  name : String
  value : Option Int
deriving DecidableEq, Repr

/-- Sum computed by `updateTotalWeight`: it selects
`input[name="weight"]` inside the table body and reduces with
`sum + (parseFloat(input.value) || 0)`. -/
def totalWeight (rows : List WeightInput) : Int :=
  (rows.filter (·.name = "weight")).foldl (fun sum i => sum + i.value.getD 0) 0

/-- Model of `updateTotalWeight()` from `eventInit.js`: computes the total,
writes `` `${totalWeight}%` `` into `#totalWeight`, and sets the red highlight
exactly when the total exceeds 100 (resetting it otherwise).  Returns the
displayed text and the flagged state. -/
def updateTotalWeight (rows : List WeightInput) : String × Bool :=
  let tw := totalWeight rows
  (toString tw ++ "%", tw > 100)

/-! ## Data tables from `formUtils.js` (module scope)

The three tables below are copied verbatim from the source: the module-level
`defaultPolicies` object (used by `populateForm` and `populatePolicies`), the
`programOutcomes` object, and the `sloMapping` object.  Assoc-lists keep the
JavaScript object-literal insertion order. -/

/-- The 18 fixed policy keys, in the insertion order of the `defaultPolicies.BSN`
object literal (`Object.keys(defaultPolicies.BSN)` in `populateForm`). -/
def policyKeys : List String :=
  ["generalPolicies", "courseMinimumGrade", "lateMakeupWork", "attendance", "incomplete", "withdrawal", "academicRights", "academicIntegrity", "netiquette", "diversityInclusion", "chosenName", "religiousObservance", "academicSupport", "disabilityDisclosure", "informationTechnologies", "counselingServices", "titleIX", "continuityInstruction"]

/-- The `BSN` entry of the module-level `defaultPolicies` table (formUtils). -/
def defaultPoliciesBSN : List (String × String) := [
  ("generalPolicies", "This course will abide by all Jefferson College of Nursing and Thomas Jefferson University policies. Students are responsible for knowing and adhering to University policies (https://www.jefferson.edu/academicpolicies) and policies as outlined in the Jefferson College of Nursing Student Handbook & Course Catalog."),
  ("courseMinimumGrade", "A minimum grade of B- (80) is required in all MSN program courses in order to progress in the curriculum. Per program policy, only final grades will be rounded to the nearest whole number. Exam and quiz scores will not be rounded and will be entered in grade book in Canvas to the nearest hundredth of a percent.\nFor more information, please see the Academic Progression policy in the Jefferson College of Nursing Student Handbook & Course Catalog."),
  ("lateMakeupWork", "For the Jefferson College of Nursing policy on late and make-up work, please see the Guidelines for Written Course Assignments section of the Jefferson College of Nursing Student Handbook & Course Catalog."),
  ("attendance", "Attendance is expected in all classes for which a student is registered. Faculty, in conjunction with the academic program/department, determines attendance requirements for each course. Please see the Thomas Jefferson University Attendance policy and the Jefferson College of Nursing Student Handbook & Course Catalog for information regarding class, laboratory, and clinical attendance.\n\nStudents who have any symptoms that are associated with infectious diseases (e.g., cold, flu, or viral infection) should not attend in-person classes, clinical experiences, or other activities that put them in close contact with other students, faculty, staff, or patients. These symptoms can include but are not limited to sneezing, coughing, fever, gastrointestinal pain, and diarrhea. Students with these symptoms should contact Student Health Services (East Falls campus) or Jefferson Occupational Health Network (JOHN) (Center City campus) if these symptoms are present before participating in any classroom, clinical, lab, or studio sessions, or any activities in which other students, faculty, staff, or patients are present. Students who have these symptoms are responsible for notifying their instructors, program, or college using the usual mechanisms before missing any scheduled course/clinical education activity, for staying current with course/clinical requirements, and for complying with any other course/clinical attendance policies. Students may be asked to provide documentation that they are under the care of a medical provider (without disclosure of any medical condition)."),
  ("incomplete", "Please refer to the Failure to Complete a Course and the Grading System policies in the Jefferson College of Nursing Student Handbook & Course Catalog."),
  ("withdrawal", "Please see the Course Withdrawal policy in the Jefferson College of Nursing Student Handbook & Course Catalog.\nFor withdrawal deadlines, please refer to the appropriate Academic Calendar."),
  ("academicRights", "The Academic Responsibility Contract in the Jefferson College of Nursing Student Handbook & Course Catalog contains information about Jefferson College of Nursing students’ academic rights and responsibilities.\nFor more information about students’ rights and responsibilities, please refer to the Thomas Jefferson University Rights and Responsibilities page."),
  ("academicIntegrity", "Academic Integrity is the foundation of all Jefferson teaching, learning, and professional endeavors and is vital to advancing a culture of fairness, trust, and respect. All members of the University community must maintain respect for the intellectual efforts of others and be honest in their own work, words, and ideas.\nFor more information, please see the Thomas Jefferson University Academic Integrity policy and Academic Integrity policy in the Jefferson College of Nursing Student Handbook & Course Catalog."),
  ("netiquette", "Faculty and fellow students wish to foster a safe online learning environment consistent with Thomas Jefferson University’s Community Standards. In keeping with Thomas Jefferson University’s Commitment to Diversity, all opinions and experiences, no matter how different or controversial they may be perceived, must be respected in the tolerant spirit of academic discourse. Students are encouraged to comment, question, or critique an idea but are not to attack an individual.\n\nOur differences will add richness to this learning experience. Please consider that sarcasm and humor can be misconstrued in online interactions and generate unintended disruptions. Working as a community of learners, we can build a polite and respectful course atmosphere."),
  ("diversityInclusion", "Jefferson holds itself accountable at every level of the organization to nurture an environment of inclusion and respect by valuing the uniqueness of every individual, celebrating and reflecting the rich diversity of its communities, and taking meaningful action to cultivate an environment of fairness, belonging, and opportunity.\nAll students are enrolled in the Diversity & Inclusion at TJU canvas course, which will provide access to resources and current events sponsored by the Office of Diversity Inclusion and Community Engagement.\nThe Diversity Inclusion & Community Engagement page:\nhttps://diversity.jefferson.edu/"),
  ("chosenName", "Some members of our community use a name, gender, and pronoun other than their legal identifiers. Students are free to elect to have their chosen first name, gender identity, and chosen pronoun appear in Thomas Jefferson University’s system.\nhttps://www.jefferson.edu/life-at-jefferson/handbooks/policies/graduate-policies/chosen-name.html"),
  ("religiousObservance", "The University understands that some students may wish to observe religious holidays that fall on scheduled class days.\nhttps://www.jefferson.edu/life-at-jefferson/handbooks/policies/graduate-policies/student-religious-observance-policy.html"),
  ("academicSupport", "Student academic support sessions are facilitated by Jefferson College of Nursing faculty members, available on an individual basis or as a group and open to all students wishing to seek additional academic support at any point during the course of study. The student academic support sessions are in addition to academic advising."),
  ("disabilityDisclosure", "Accessibility Services complies with Section 504 and the ADA, providing reasonable accommodations to students who are eligible for such services. In post-secondary education, the student has the right to request accommodations and must be proactive and initiate the process. Disclosure of a student’s disability is voluntary and at the discretion of the student. Documentation concerning disabilities is separate from the student’s general academic file. Please contact the Office of Student Accessibility Services at:\n\nEast Falls Campus:  https://www.jefferson.edu/east-falls/student-accessibility-services.html\nCenter City/Dixon Campus:  https://www.jefferson.edu/life-at-jefferson/student-resources-services/academics-career-success/accessibility-services.html\n\nSee the University policy on Disability Accommodations for more information."),
  ("informationTechnologies", "Analysts in Jefferson’s Information Systems and Technologies (IS&T) team are available to answer your technology questions or issues.\n\nCenter City/Dixon: 215-955-7975\nhttps://library.jefferson.edu/tech/\n\nEast Falls: 215-951-4648 Search Hall, first floor\nhttp://eastfalls.jefferson.edu/OIR/TechnologyHelpDesk.html"),
  ("counselingServices", "The Student Counseling Center provides assistance in addressing personal challenges that interfere with academic progress and growth.\n\nCenter City/Dixon: 33 S. Ninth Street, Suite 230, 215-503-2817\nContact: https://www.jefferson.edu/life-at-jefferson/health-wellness/counseling-center/contact.html\nServices: https://www.jefferson.edu/life-at-jefferson/health-wellness/counseling-center/our-services.html\nCrisis Resources: https://www.jefferson.edu/life-at-jefferson/health-wellness/counseling-center/crisis-resources.html\n\nEast Falls: Kanbar Campus Center, 215-951-2868\nhttp://www.eastfalls.jefferson.edu/counseling/"),
  ("titleIX", "The University’s Sex and Gender-Based Misconduct Policy sets forth Jefferson’s commitment to foster an environment free of discrimination, including sexual harassment and sexual violence.\nhttps://www.jefferson.edu/university/academic-affairs/schools/student-affairs/sexual-misconduct.html"),
  ("continuityInstruction", "For information about continuity of instruction in the event of an emergency, please reference the Thomas Jefferson University Inclement Weather policy and the Continuity of Instruction in Event of Emergency policy in the Jefferson College of Nursing Student Handbook & Course Catalog.")
]

/-- The `MSN` entry of the module-level `defaultPolicies` table (formUtils). -/
def defaultPoliciesMSN : List (String × String) := [
  ("generalPolicies", "MSN This course will abide by all Jefferson College of Nursing and Thomas Jefferson University policies. Students are responsible for knowing and adhering to University policies (https://www.jefferson.edu/academicpolicies) and policies as outlined in the Jefferson College of Nursing Student Handbook & Course Catalog."),
  ("courseMinimumGrade", "A minimum grade of B- (80) is required in all MSN program courses in order to progress in the curriculum. Per program policy, only final grades will be rounded to the nearest whole number. Exam and quiz scores will not be rounded and will be entered in grade book in Canvas to the nearest hundredth of a percent.\nFor more information, please see the Academic Progression policy in the Jefferson College of Nursing Student Handbook & Course Catalog."),
  ("lateMakeupWork", "For the Jefferson College of Nursing policy on late and make-up work, please see the Guidelines for Written Course Assignments section of the Jefferson College of Nursing Student Handbook & Course Catalog."),
  ("attendance", "Attendance is expected in all classes for which a student is registered. Faculty, in conjunction with the academic program/department, determines attendance requirements for each course. Please see the Thomas Jefferson University Attendance policy and the Jefferson College of Nursing Student Handbook & Course Catalog for information regarding class, laboratory, and clinical attendance.\n\nStudents who have any symptoms that are associated with infectious diseases (e.g., cold, flu, or viral infection) should not attend in-person classes, clinical experiences, or other activities that put them in close contact with other students, faculty, staff, or patients. These symptoms can include but are not limited to sneezing, coughing, fever, gastrointestinal pain, and diarrhea. Students with these symptoms should contact Student Health Services (East Falls campus) or Jefferson Occupational Health Network (JOHN) (Center City campus) if these symptoms are present before participating in any classroom, clinical, lab, or studio sessions, or any activities in which other students, faculty, staff, or patients are present. Students who have these symptoms are responsible for notifying their instructors, program, or college using the usual mechanisms before missing any scheduled course/clinical education activity, for staying current with course/clinical requirements, and for complying with any other course/clinical attendance policies. Students may be asked to provide documentation that they are under the care of a medical provider (without disclosure of any medical condition)."),
  ("incomplete", "Please refer to the Failure to Complete a Course and the Grading System policies in the Jefferson College of Nursing Student Handbook & Course Catalog."),
  ("withdrawal", "Please see the Course Withdrawal policy in the Jefferson College of Nursing Student Handbook & Course Catalog.\nFor withdrawal deadlines, please refer to the appropriate Academic Calendar."),
  ("academicRights", "The Academic Responsibility Contract in the Jefferson College of Nursing Student Handbook & Course Catalog contains information about Jefferson College of Nursing students’ academic rights and responsibilities.\nFor more information about students’ rights and responsibilities, please refer to the Thomas Jefferson University Rights and Responsibilities page."),
  ("academicIntegrity", "Academic Integrity is the foundation of all Jefferson teaching, learning, and professional endeavors and is vital to advancing a culture of fairness, trust, and respect. All members of the University community must maintain respect for the intellectual efforts of others and be honest in their own work, words, and ideas.\nFor more information, please see the Thomas Jefferson University Academic Integrity policy and Academic Integrity policy in the Jefferson College of Nursing Student Handbook & Course Catalog."),
  ("netiquette", "Faculty and fellow students wish to foster a safe online learning environment consistent with Thomas Jefferson University’s Community Standards. In keeping with Thomas Jefferson University’s Commitment to Diversity, all opinions and experiences, no matter how different or controversial they may be perceived, must be respected in the tolerant spirit of academic discourse. Students are encouraged to comment, question, or critique an idea but are not to attack an individual.\n\nOur differences will add richness to this learning experience. Please consider that sarcasm and humor can be misconstrued in online interactions and generate unintended disruptions. Working as a community of learners, we can build a polite and respectful course atmosphere."),
  ("diversityInclusion", "Jefferson holds itself accountable at every level of the organization to nurture an environment of inclusion and respect by valuing the uniqueness of every individual, celebrating and reflecting the rich diversity of its communities, and taking meaningful action to cultivate an environment of fairness, belonging, and opportunity.\nAll students are enrolled in the Diversity & Inclusion at TJU canvas course, which will provide access to resources and current events sponsored by the Office of Diversity Inclusion and Community Engagement.\nThe Diversity Inclusion & Community Engagement page:\nhttps://diversity.jefferson.edu/"),
  ("chosenName", "Some members of our community use a name, gender, and pronoun other than their legal identifiers. Students are free to elect to have their chosen first name, gender identity, and chosen pronoun appear in Thomas Jefferson University’s system.\nhttps://www.jefferson.edu/life-at-jefferson/handbooks/policies/graduate-policies/chosen-name.html"),
  ("religiousObservance", "The University understands that some students may wish to observe religious holidays that fall on scheduled class days.\nhttps://www.jefferson.edu/life-at-jefferson/handbooks/policies/graduate-policies/student-religious-observance-policy.html"),
  ("academicSupport", "Student academic support sessions are facilitated by Jefferson College of Nursing faculty members, available on an individual basis or as a group and open to all students wishing to seek additional academic support at any point during the course of study. The student academic support sessions are in addition to academic advising."),
  ("disabilityDisclosure", "Accessibility Services complies with Section 504 and the ADA, providing reasonable accommodations to students who are eligible for such services. In post-secondary education, the student has the right to request accommodations and must be proactive and initiate the process. Disclosure of a student’s disability is voluntary and at the discretion of the student. Documentation concerning disabilities is separate from the student’s general academic file. Please contact the Office of Student Accessibility Services at:\n\nEast Falls Campus:  https://www.jefferson.edu/east-falls/student-accessibility-services.html\nCenter City/Dixon Campus:  https://www.jefferson.edu/life-at-jefferson/student-resources-services/academics-career-success/accessibility-services.html\n\nSee the University policy on Disability Accommodations for more information."),
  ("informationTechnologies", "Analysts in Jefferson’s Information Systems and Technologies (IS&T) team are available to answer your technology questions or issues.\n\nCenter City/Dixon: 215-955-7975\nhttps://library.jefferson.edu/tech/\n\nEast Falls: 215-951-4648 Search Hall, first floor\nhttp://eastfalls.jefferson.edu/OIR/TechnologyHelpDesk.html"),
  ("counselingServices", "The Student Counseling Center provides assistance in addressing personal challenges that interfere with academic progress and growth.\n\nCenter City/Dixon: 33 S. Ninth Street, Suite 230, 215-503-2817\nContact: https://www.jefferson.edu/life-at-jefferson/health-wellness/counseling-center/contact.html\nServices: https://www.jefferson.edu/life-at-jefferson/health-wellness/counseling-center/our-services.html\nCrisis Resources: https://www.jefferson.edu/life-at-jefferson/health-wellness/counseling-center/crisis-resources.html\n\nEast Falls: Kanbar Campus Center, 215-951-2868\nhttp://www.eastfalls.jefferson.edu/counseling/"),
  ("titleIX", "The University’s Sex and Gender-Based Misconduct Policy sets forth Jefferson’s commitment to foster an environment free of discrimination, including sexual harassment and sexual violence.\nhttps://www.jefferson.edu/university/academic-affairs/schools/student-affairs/sexual-misconduct.html"),
  ("continuityInstruction", "For information about continuity of instruction in the event of an emergency, please reference the Thomas Jefferson University Inclement Weather policy and the Continuity of Instruction in Event of Emergency policy in the Jefferson College of Nursing Student Handbook & Course Catalog.")
]

/-- The `DNP` entry of the module-level `defaultPolicies` table (formUtils). -/
def defaultPoliciesDNP : List (String × String) := [
  ("generalPolicies", "DNP This course will abide by all Jefferson College of Nursing and Thomas Jefferson University policies. Students are responsible for knowing and adhering to University policies (https://www.jefferson.edu/academicpolicies) and policies as outlined in the Jefferson College of Nursing Student Handbook & Course Catalog."),
  ("courseMinimumGrade", "A minimum grade of B- (80) is required in all MSN program courses in order to progress in the curriculum. Per program policy, only final grades will be rounded to the nearest whole number. Exam and quiz scores will not be rounded and will be entered in grade book in Canvas to the nearest hundredth of a percent.\nFor more information, please see the Academic Progression policy in the Jefferson College of Nursing Student Handbook & Course Catalog."),
  ("lateMakeupWork", "For the Jefferson College of Nursing policy on late and make-up work, please see the Guidelines for Written Course Assignments section of the Jefferson College of Nursing Student Handbook & Course Catalog."),
  ("attendance", "Attendance is expected in all classes for which a student is registered. Faculty, in conjunction with the academic program/department, determines attendance requirements for each course. Please see the Thomas Jefferson University Attendance policy and the Jefferson College of Nursing Student Handbook & Course Catalog for information regarding class, laboratory, and clinical attendance.\n\nStudents who have any symptoms that are associated with infectious diseases (e.g., cold, flu, or viral infection) should not attend in-person classes, clinical experiences, or other activities that put them in close contact with other students, faculty, staff, or patients. These symptoms can include but are not limited to sneezing, coughing, fever, gastrointestinal pain, and diarrhea. Students with these symptoms should contact Student Health Services (East Falls campus) or Jefferson Occupational Health Network (JOHN) (Center City campus) if these symptoms are present before participating in any classroom, clinical, lab, or studio sessions, or any activities in which other students, faculty, staff, or patients are present. Students who have these symptoms are responsible for notifying their instructors, program, or college using the usual mechanisms before missing any scheduled course/clinical education activity, for staying current with course/clinical requirements, and for complying with any other course/clinical attendance policies. Students may be asked to provide documentation that they are under the care of a medical provider (without disclosure of any medical condition)."),
  ("incomplete", "Please refer to the Failure to Complete a Course and the Grading System policies in the Jefferson College of Nursing Student Handbook & Course Catalog."),
  ("withdrawal", "Please see the Course Withdrawal policy in the Jefferson College of Nursing Student Handbook & Course Catalog.\nFor withdrawal deadlines, please refer to the appropriate Academic Calendar."),
  ("academicRights", "The Academic Responsibility Contract in the Jefferson College of Nursing Student Handbook & Course Catalog contains information about Jefferson College of Nursing students’ academic rights and responsibilities.\nFor more information about students’ rights and responsibilities, please refer to the Thomas Jefferson University Rights and Responsibilities page."),
  ("academicIntegrity", "Academic Integrity is the foundation of all Jefferson teaching, learning, and professional endeavors and is vital to advancing a culture of fairness, trust, and respect. All members of the University community must maintain respect for the intellectual efforts of others and be honest in their own work, words, and ideas.\nFor more information, please see the Thomas Jefferson University Academic Integrity policy and Academic Integrity policy in the Jefferson College of Nursing Student Handbook & Course Catalog."),
  ("netiquette", "Faculty and fellow students wish to foster a safe online learning environment consistent with Thomas Jefferson University’s Community Standards. In keeping with Thomas Jefferson University’s Commitment to Diversity, all opinions and experiences, no matter how different or controversial they may be perceived, must be respected in the tolerant spirit of academic discourse. Students are encouraged to comment, question, or critique an idea but are not to attack an individual.\n\nOur differences will add richness to this learning experience. Please consider that sarcasm and humor can be misconstrued in online interactions and generate unintended disruptions. Working as a community of learners, we can build a polite and respectful course atmosphere."),
  ("diversityInclusion", "Jefferson holds itself accountable at every level of the organization to nurture an environment of inclusion and respect by valuing the uniqueness of every individual, celebrating and reflecting the rich diversity of its communities, and taking meaningful action to cultivate an environment of fairness, belonging, and opportunity.\nAll students are enrolled in the Diversity & Inclusion at TJU canvas course, which will provide access to resources and current events sponsored by the Office of Diversity Inclusion and Community Engagement.\nThe Diversity Inclusion & Community Engagement page:\nhttps://diversity.jefferson.edu/"),
  ("chosenName", "Some members of our community use a name, gender, and pronoun other than their legal identifiers. Students are free to elect to have their chosen first name, gender identity, and chosen pronoun appear in Thomas Jefferson University’s system.\nhttps://www.jefferson.edu/life-at-jefferson/handbooks/policies/graduate-policies/chosen-name.html"),
  ("religiousObservance", "The University understands that some students may wish to observe religious holidays that fall on scheduled class days.\nhttps://www.jefferson.edu/life-at-jefferson/handbooks/policies/graduate-policies/student-religious-observance-policy.html"),
  ("academicSupport", "Student academic support sessions are facilitated by Jefferson College of Nursing faculty members, available on an individual basis or as a group and open to all students wishing to seek additional academic support at any point during the course of study. The student academic support sessions are in addition to academic advising."),
  ("disabilityDisclosure", "Accessibility Services complies with Section 504 and the ADA, providing reasonable accommodations to students who are eligible for such services. In post-secondary education, the student has the right to request accommodations and must be proactive and initiate the process. Disclosure of a student’s disability is voluntary and at the discretion of the student. Documentation concerning disabilities is separate from the student’s general academic file. Please contact the Office of Student Accessibility Services at:\n\nEast Falls Campus:  https://www.jefferson.edu/east-falls/student-accessibility-services.html\nCenter City/Dixon Campus:  https://www.jefferson.edu/life-at-jefferson/student-resources-services/academics-career-success/accessibility-services.html\n\nSee the University policy on Disability Accommodations for more information."),
  ("informationTechnologies", "Analysts in Jefferson’s Information Systems and Technologies (IS&T) team are available to answer your technology questions or issues.\n\nCenter City/Dixon: 215-955-7975\nhttps://library.jefferson.edu/tech/\n\nEast Falls: 215-951-4648 Search Hall, first floor\nhttp://eastfalls.jefferson.edu/OIR/TechnologyHelpDesk.html"),
  ("counselingServices", "The Student Counseling Center provides assistance in addressing personal challenges that interfere with academic progress and growth.\n\nCenter City/Dixon: 33 S. Ninth Street, Suite 230, 215-503-2817\nContact: https://www.jefferson.edu/life-at-jefferson/health-wellness/counseling-center/contact.html\nServices: https://www.jefferson.edu/life-at-jefferson/health-wellness/counseling-center/our-services.html\nCrisis Resources: https://www.jefferson.edu/life-at-jefferson/health-wellness/counseling-center/crisis-resources.html\n\nEast Falls: Kanbar Campus Center, 215-951-2868\nhttp://www.eastfalls.jefferson.edu/counseling/"),
  ("titleIX", "The University’s Sex and Gender-Based Misconduct Policy sets forth Jefferson’s commitment to foster an environment free of discrimination, including sexual harassment and sexual violence.\nhttps://www.jefferson.edu/university/academic-affairs/schools/student-affairs/sexual-misconduct.html"),
  ("continuityInstruction", "For information about continuity of instruction in the event of an emergency, please reference the Thomas Jefferson University Inclement Weather policy and the Continuity of Instruction in Event of Emergency policy in the Jefferson College of Nursing Student Handbook & Course Catalog.")
]

/-- The module-level `defaultPolicies` table: program code → policy key → default text. -/
def defaultPolicies : List (String × List (String × String)) :=
  [("BSN", defaultPoliciesBSN), ("MSN", defaultPoliciesMSN), ("DNP", defaultPoliciesDNP)]

/-- The `BSN` entry of the `programOutcomes` table. -/
def programOutcomesBSN : List String := [
  "Apply knowledge and principles from the arts, sciences, and humanities to the developmental, psychosocial, spiritual, and physical care of individuals, families, communities, and populations. (Essential I)",
  "Integrate knowledge and skills in leadership, quality and patient safety into the provision of nursing care to individuals, families, communities, and populations across the care continuum. (Essential II)",
  "Incorporate reflection, critical appraisal, clinical reasoning, and current best evidence into the delivery of care to individuals, families, communities, and populations. (Essential III)",
  "Utilize information management and emerging healthcare technologies in the delivery of quality nursing care. (Essentials II, IV)",
  "Recognize the influence healthcare policies, including financial, legal and regulatory, have on health system functioning and the broader determinants of health. (Essential V)",
  "Utilize open communication, shared-decision making, creative problem solving, and mutual respect when collaborating with nursing and interprofessional teams. (Essential VI)",
  "Incorporate strategies of health promotion and disease prevention in addressing health outcomes and determinants in communities and populations. (Essential VII)",
  "Demonstrate professionalism and the values of altruism, autonomy, human dignity, integrity, and social justice in the nursing care of individuals, families, communities and populations. (Essentials VIII, IX)"
]

/-- The `MSN` entry of the `programOutcomes` table. -/
def programOutcomesMSN : List String := [
  "Integrate relevant knowledge, principles and theories from nursing and related sciences into the advanced nursing care of individuals, families and populations. (Essential I)",
  "Demonstrate acumen in organizational leadership through effective collaboration, consultation, and decision-making. (Essential II)",
  "Integrate research translation and evidence appraisal into advanced nursing practice to initiate change and improve quality outcomes. (Essential IV)",
  "Evaluate information science approaches and patient-centric technologies to improve health outcomes and enhance quality of care. (Essentials III, V)",
  "Analyze the impact policies, economic factors, and ethical and socio-cultural dimensions have on advanced nursing practice and health care outcomes. (Essential VI)",
  "Integrate the concepts of interprofessional communication, collaboration and consultation to effectively manage and coordinate care across systems. (Essential VII)",
  "Incorporate culturally-appropriate concepts in the planning and delivery of evidence-based preventive and clinical care to communities, and populations. (Essential VIII)",
  "Demonstrate expertise in a defined area of advanced practice nursing that influences health care outcomes for individuals, populations and systems. (Essential IX)"
]

/-- The `DNP` entry of the `programOutcomes` table. -/
def programOutcomesDNP : List String := [
  "Synthesize knowledge from ethics and the biophysical, psychosocial, analytical, and organizational sciences into the conceptual foundation of advanced nursing practice at the doctoral level. (Essential I)",
  "Employ organizational and systems-level leadership principles in the development and evaluation of care delivery approaches that meet the current and future needs of communities and populations. (Essential II)",
  "Design, direct and evaluate scholarly inquiries that incorporate evidence appraisal, research translation, and standards of care to improve practice and the practice environment. (Essential III)",
  "Analyze ethical and legal issues in the use of information, information technology, communication networks, and patient care technologies used to support safe, high-quality patient care. (Essentials II, IV)",
  "Influence policy makers through active participation on committees, boards, or task forces at the institutional, local, state, regional, national, and/or international levels to improve health care delivery and outcomes. (Essential V)",
  "Integrate skills of effective communication, collaboration, shared decision-making, and leadership with interprofessional teams to create change in health care. (Essential VI)",
  "Synthesize individual, aggregate, and population health data in the development, implementation, and evaluation of interventions that address health promotion/disease prevention, access, and disparities. (Essential VII)",
  "Demonstrate advanced levels of leadership, systems thinking, clinical judgement, and analytical skills in designing, delivering, and evaluating evidence-based care at the highest level of advanced practice. (Essential VIII)"
]

/-- The `programOutcomes` table: program code → list of program outcome texts. -/
def programOutcomes : List (String × List String) :=
  [("BSN", programOutcomesBSN), ("MSN", programOutcomesMSN), ("DNP", programOutcomesDNP)]

/-- The `BSN` entry of the `sloMapping` table (keys are the 1-based strings 1..8). -/
def sloMappingBSN : List (Nat × List String) := [
  (1, ["Demonstrate an understanding of the developmental, psychosocial, and physical care principles in patient scenarios.", "Analyze case studies to apply principles of the arts, sciences, and humanities in nursing care."]),
  (2, ["Apply leadership and quality improvement concepts in simulated care environments.", "Critique quality and safety initiatives in clinical practice."]),
  (3, ["Utilize critical thinking and evidence-based practices to solve complex nursing problems.", "Reflect on nursing practice to identify areas for improvement."]),
  (4, ["Demonstrate proficiency in the use of healthcare technologies during patient care simulations.", "Evaluate the effectiveness of information systems in improving care delivery."]),
  (5, ["Assess the impact of healthcare policies on patient care and outcomes.", "Advocate for legal and regulatory improvements in healthcare systems."]),
  (6, ["Effectively collaborate with interdisciplinary teams in case management scenarios.", "Apply principles of shared decision-making in patient care plans."]),
  (7, ["Design health promotion strategies for diverse populations.", "Implement disease prevention programs tailored to community needs."]),
  (8, ["Exemplify professionalism and integrity in simulated patient care.", "Advocate for social justice and autonomy in community health settings."])
]

/-- The `MSN` entry of the `sloMapping` table (keys are the 1-based strings 1..8). -/
def sloMappingMSN : List (Nat × List String) := [
  (1, ["Integrate advanced nursing theories in complex care delivery models.", "Analyze the application of principles from nursing and related sciences in patient care."]),
  (2, ["Demonstrate effective decision-making in interprofessional leadership roles.", "Evaluate organizational strategies to improve care quality."]),
  (3, ["Critique research articles to support evidence-based nursing practices.", "Implement evidence-based changes to improve quality outcomes."]),
  (4, ["Evaluate patient-centric technologies for their impact on health outcomes.", "Apply information science approaches to improve healthcare delivery."]),
  (5, ["Analyze the effects of policies and economic factors on patient care outcomes.", "Advocate for ethical decision-making in advanced nursing practices."]),
  (6, ["Demonstrate interprofessional communication skills in managing patient care.", "Collaborate with healthcare teams to coordinate care across systems."]),
  (7, ["Incorporate cultural competence in the development of community health interventions.", "Evaluate population health strategies for their effectiveness in preventive care."]),
  (8, ["Develop expertise in a specialized area of advanced nursing practice.", "Influence health outcomes through advanced clinical decision-making."])
]

/-- The `DNP` entry of the `sloMapping` table (keys are the 1-based strings 1..8). -/
def sloMappingDNP : List (Nat × List String) := [
  (1, ["Synthesize knowledge from multiple sciences into advanced nursing practice scenarios.", "Demonstrate ethical decision-making in clinical practice."]),
  (2, ["Apply leadership principles to redesign care delivery models.", "Evaluate systems-level interventions to meet population health needs."]),
  (3, ["Design evidence-based interventions for improving clinical practice environments.", "Implement scholarly inquiries to evaluate healthcare practices."]),
  (4, ["Analyze the ethical use of healthcare technologies in patient care.", "Evaluate legal considerations in information technology use."]),
  (5, ["Participate in policy advocacy to improve healthcare delivery.", "Demonstrate leadership on boards or committees to influence healthcare policies."]),
  (6, ["Collaborate with interprofessional teams to achieve healthcare change.", "Apply communication and decision-making skills to lead care initiatives."]),
  (7, ["Develop population health programs addressing health disparities.", "Implement interventions to promote health and prevent disease."]),
  (8, ["Exhibit advanced clinical judgment in designing evidence-based care plans.", "Evaluate healthcare systems for effectiveness in delivering high-level care."])
]

/-- The `sloMapping` table: program code → (1-based outcome number → seed SLO texts). -/
def sloMapping : List (String × List (Nat × List String)) :=
  [("BSN", sloMappingBSN), ("MSN", sloMappingMSN), ("DNP", sloMappingDNP)]

/-! ## Association-list primitives for JavaScript objects -/

/-- JavaScript property read `obj[key]` on an object kept as an insertion-order
association list (`none` models `undefined`). -/
def alistGet {α : Type} (l : List (String × α)) (k : String) : Option α :=
  (l.find? (·.1 = k)).map (·.2)

/-- JavaScript property write `obj[key] = v`: an existing key keeps its
position and gets the new value, a new key is appended. -/
def jsObjSet {α : Type} (l : List (String × α)) (k : String) (v : α) : List (String × α) :=
  if l.any (·.1 = k) then l.map (fun p => if p.1 = k then (k, v) else p) else l ++ [(k, v)]

/-- Property read with a numeric key (for `sloMapping`-style objects whose keys
are the strings of 1..8 and are accessed with a 0-based loop index). -/
def alistGetNat {α : Type} (l : List (Nat × α)) (k : Nat) : Option α :=
  (l.find? (·.1 = k)).map (·.2)

/-- JavaScript truthiness of a possibly-absent id string: `null`/`undefined`
and `""` are falsy. -/
def jsTruthy : Option String → Bool
  | none => false
  | some s => s ≠ ""

/-- Key coercion applied when a JavaScript array is used as a property key
(`programOutcomes[arr]` in `populateForm`): the array's `toString`, i.e. its
elements joined with commas. -/
def jsArrayKey (xs : List String) : String :=
  String.intercalate "," xs

/-! ## The DOM model

Only what `collectFormData`, `populateForm` and the sync engine read or write
is represented; each region corresponds to a container in the markup. -/

/-- An id-addressable form element (input / textarea / select): its id, its
current value, and its `data-policy-key` attribute when present. -/
structure Elem where
  id : String
  value : String
  policyKey : Option String
deriving DecidableEq, Repr

/-- Model of `getValueById` (helper.js): value of the first element with the
given id, `""` (with a warning) when absent. -/
def getValueById (elems : List Elem) (id : String) : String :=
  match elems.find? (·.id = id) with
  | some e => e.value
  | none => ""

/-- Model of `setElementValue` (formUtils.js): write the value of the first
element with the given id; warn and do nothing when absent. -/
def setElementValue (elems : List Elem) (id v : String) : List Elem :=
  match elems with
  | [] => []
  | e :: rest =>
      if e.id = id then { e with value := v } :: rest
      else e :: setElementValue rest id v

/-- An instructor block inside `#instructorsContainer`: `nameIdx` is the index
`N` embedded in the input names `instructors[N][...]` (written as
position + 1 by `populateInstructors`). -/
structure InstructorDiv where
  nameIdx : Nat
  name : String
  email : String
  phone : String
  office : String
  officeHours : String
deriving DecidableEq, Repr

/-- An instructor record as assembled by `collectFormData`. -/
structure Instructor where
  name : String
  email : String
  phone : String
  office : String
  officeHours : String
deriving DecidableEq, Repr

/-- A row of `#progStudentOutcomesTable`: the program-outcome text and the
`.slo-cell` holding the SLO groups. -/
structure SloRow where
  outcomeText : String
  cell : SloCell
deriving DecidableEq, Repr

/-- A row of `#outcomesAssessmentTable`: its `data-slo-number` attribute (when
set), the outcome cell text, and the values of the text inputs in its
`.assessment-cell`. -/
structure OutcomeRow where
  sloNumber : Option String
  outcomeText : String
  assessmentInputs : List String
deriving DecidableEq, Repr

/-- The DOM state touched by the assembler/populator and the sync engine. -/
structure Dom where
  elems : List Elem
  instructorDivs : List InstructorDiv
  sloRows : List SloRow
  outcomeRows : List OutcomeRow
  weightingRows : List WeightInput
  modulesContainer : List ModuleBlock
  quillInstances : List (String × String)
deriving DecidableEq, Repr

/-! ## Document Assembler: `collectFormData` (formUtils.js) -/

/-- The document object produced by `collectFormData`.  The fields
`learningOutcomes`, `assessments`, `weightingDetails`, `gradingElements`,
`modules`, `slo` and `programOutcomes` are initialized to empty and — in the
source — never filled in by `collectFormData`. -/
structure FormData where
  programSelect : String
  courseTitle : String
  courseNumber : String
  credits : String
  placement : String
  courseType : String
  courseDelivery : String
  courseLead : String
  leadEmail : String
  leadPhone : String
  leadOffice : String
  leadOfficeHours : String
  courseReqs : String
  courseDescription : String
  requiredMaterials : String
  instructionalMethods : String
  courseCommunications : String
  instructors : List Instructor
  learningOutcomes : List String
  assessments : List String
  weightingDetails : List String
  gradingElements : List String
  modules : List String
  slo : List (String × List String)
  policiesAndServices : List (String × String)
  programOutcomes : List String
deriving DecidableEq, Repr

/-- The fixed id list of scalar fields, in the order of `populateForm`'s
`generalFields` (the same ids `collectFormData` reads). -/
def generalFields : List String :=
  ["programSelect", "courseTitle", "courseNumber", "credits", "placement",
   "courseType", "courseDelivery", "courseLead", "leadEmail", "leadPhone",
   "leadOffice", "leadOfficeHours", "courseReqs", "courseDescription",
   "requiredMaterials", "instructionalMethods", "courseCommunications"]

/-- JavaScript property read `data[field]` on the document object, restricted
to the scalar fields that `populateFields(generalFields, ·)` asks for
(`none` for any other key). -/
def FormData.scalar? (fd : FormData) (field : String) : Option String :=
  if field = "programSelect" then some fd.programSelect
  else if field = "courseTitle" then some fd.courseTitle
  else if field = "courseNumber" then some fd.courseNumber
  else if field = "credits" then some fd.credits
  else if field = "placement" then some fd.placement
  else if field = "courseType" then some fd.courseType
  else if field = "courseDelivery" then some fd.courseDelivery
  else if field = "courseLead" then some fd.courseLead
  else if field = "leadEmail" then some fd.leadEmail
  else if field = "leadPhone" then some fd.leadPhone
  else if field = "leadOffice" then some fd.leadOffice
  else if field = "leadOfficeHours" then some fd.leadOfficeHours
  else if field = "courseReqs" then some fd.courseReqs
  else if field = "courseDescription" then some fd.courseDescription
  else if field = "requiredMaterials" then some fd.requiredMaterials
  else if field = "instructionalMethods" then some fd.instructionalMethods
  else if field = "courseCommunications" then some fd.courseCommunications
  else none

/-- Collection of one instructor from the block at (0-based) position `index`
of `#instructorsContainer`: each field is looked up by the name
`instructors[index+1][...]` inside the block and defaults to `""` when the
block's inputs carry a different index (`?.value?.trim() || ''`). -/
def collectInstructorAt (d : InstructorDiv) (index : Nat) : Instructor :=
  if d.nameIdx = index + 1 then
    { name := jsTrim d.name
      email := jsTrim d.email
      phone := jsTrim d.phone
      office := jsTrim d.office
      officeHours := jsTrim d.officeHours }
  else
    { name := "", email := "", phone := "", office := "", officeHours := "" }

/-- Iteration of `instructorContainer.forEach((instructorDiv, index) => ...)`:
collect each block with its 0-based position. -/
def collectInstructors (index : Nat) : List InstructorDiv → List Instructor
  | [] => []
  | d :: rest => collectInstructorAt d index :: collectInstructors (index + 1) rest

/-- Collection of `policiesAndServices`: every element carrying a
`data-policy-key` attribute is visited in document order; a truthy key maps to
the trimmed value (`policy.value?.trim() || ''`), later elements overwriting
earlier ones with the same key. -/
def collectPolicyStep (acc : List (String × String)) (e : Elem) : List (String × String) :=
  match e.policyKey with
  | some k => if k ≠ "" then jsObjSet acc k (jsTrim e.value) else acc
  | none => acc

/-- Fold of `collectPolicyStep` over the document's elements, starting from
the empty object. -/
def collectPolicies (elems : List Elem) : List (String × String) :=
  elems.foldl collectPolicyStep []

/-- Model of `collectFormData()` (formUtils.js): reads the 17 scalar fields by
id, the instructor blocks positionally, and the policy fields by their
`data-policy-key` markers; all other document fields stay at their empty
initializers. -/
def collectFormData (dom : Dom) : FormData :=
  { programSelect := getValueById dom.elems "programSelect"
    courseTitle := getValueById dom.elems "courseTitle"
    courseNumber := getValueById dom.elems "courseNumber"
    credits := getValueById dom.elems "credits"
    placement := getValueById dom.elems "placement"
    courseType := getValueById dom.elems "courseType"
    courseDelivery := getValueById dom.elems "courseDelivery"
    courseLead := getValueById dom.elems "courseLead"
    leadEmail := getValueById dom.elems "leadEmail"
    leadPhone := getValueById dom.elems "leadPhone"
    leadOffice := getValueById dom.elems "leadOffice"
    leadOfficeHours := getValueById dom.elems "leadOfficeHours"
    courseReqs := getValueById dom.elems "courseReqs"
    courseDescription := getValueById dom.elems "courseDescription"
    requiredMaterials := getValueById dom.elems "requiredMaterials"
    instructionalMethods := getValueById dom.elems "instructionalMethods"
    courseCommunications := getValueById dom.elems "courseCommunications"
    instructors := collectInstructors 0 dom.instructorDivs
    learningOutcomes := []
    assessments := []
    weightingDetails := []
    gradingElements := []
    modules := []
    slo := []
    policiesAndServices := collectPolicies dom.elems
    programOutcomes := [] }

/-! ## Document Populator: `populateForm` (formUtils.js) -/

/-- Model of `populateFields(generalFields, syllabusData)`: for each field id,
write `data[field] ?? '' ` via `setElementValue` (the typed document always has
its scalar fields, so the `??` fallbacks are for ids outside the scalar set).
-/
def populateScalarFields (elems : List Elem) (fd : FormData) : List Elem :=
  generalFields.foldl (fun es f => setElementValue es f ((fd.scalar? f).getD "")) elems

/-- Field value resolved by `populateForm`'s policy pass for one policy key:
`policies[field] ?? defaultPolicies.BSN[field] ?? ''` — the defaults here are
the BSN table regardless of the document's program. -/
def populateFormPolicyValue (pols : List (String × String)) (key : String) : String :=
  (alistGet pols key).getD ((alistGet defaultPoliciesBSN key).getD "")

/-- Model of `populateFields(policyFields, policies, defaultPolicies.BSN)` in
`populateForm`: for each of the 18 keys, write
`policies[key] ?? defaultPolicies.BSN[key] ?? ''` into the element with that
id.  Note the defaults are always the BSN table, whatever program the document
selects. -/
def populatePolicyFields (elems : List Elem) (pols : List (String × String)) : List Elem :=
  policyKeys.foldl (fun es k => setElementValue es k (populateFormPolicyValue pols k)) elems

/-- Model of `updateLearningOutcomesAndAssessments()` (assessmentManager.js),
as called with no argument: remembers the assessments of rows keyed by
`data-slo-number`, clears `#outcomesAssessmentTable`, and rebuilds one row per
SLO textarea of every `.slo-cell`, preferring (in order) assessments from the
(absent) argument, then the remembered ones, then a single blank input. -/
def updateLearningOutcomesAndAssessments (dom : Dom) : Dom :=
  let existingAssessments : List (String × List String) :=
    dom.outcomeRows.foldl
      (fun acc r =>
        match r.sloNumber with
        | some k => if k ≠ "" then jsObjSet acc k r.assessmentInputs else acc
        | none => acc)
      []
  let newRows : List OutcomeRow :=
    dom.sloRows.flatMap (fun row =>
      row.cell.groups.enum.map (fun p =>
        let sloNumber := s!"{row.cell.sloIndex}.{p.1 + 1}"
        let assessments := (alistGet existingAssessments sloNumber).getD []
        { sloNumber := some sloNumber
          outcomeText := s!"{sloNumber} {p.2.value}"
          assessmentInputs := if assessments.isEmpty then [""] else assessments }))
  { dom with outcomeRows := newRows }

/-- Model of `populateProgramAndSLOs(program)` (formUtils.js): clears
`#progStudentOutcomesTable`; when both `programOutcomes[program]` and
`sloMapping[program]` exist, rebuilds one row per program outcome whose
`.slo-cell` (with `data-slo-index = index + 1`) is seeded from
`sloData[index]` — the source indexes the 1-based `sloMapping` object with the
0-based loop index, so row 0 gets no seed groups.  Finally the SLO listeners
are re-attached (no value changes) and the outcomes/assessments table is
rebuilt. -/
def populateProgramAndSLOs (progKey : String) (dom : Dom) : Dom :=
  let rows : List SloRow :=
    match alistGet programOutcomes progKey, alistGet sloMapping progKey with
    | some programData, some sloData =>
        programData.enum.map (fun p =>
          let index := p.1
          let groups : List SloGroup :=
            match alistGetNat sloData index with
            | some slos =>
                if slos.isEmpty then []
                else slos.enum.map (fun q =>
                  { placeholder := s!"SLO {index + 1}.{q.1 + 1}", value := q.2 })
            | none => []
          { outcomeText := p.2, cell := { sloIndex := index + 1, groups := groups } })
    | _, _ => []
  updateLearningOutcomesAndAssessments { dom with sloRows := rows }

/-- Model of `populateInstructors(instructors)` (formUtils.js): clears
`#instructorsContainer` and rebuilds one block per instructor with input names
indexed by position + 1 and values `instructor.f || ''` (the Quill editors are
destroyed and re-created; they do not change any textarea value here). -/
def populateInstructorsFrom (index : Nat) : List Instructor → List InstructorDiv
  | [] => []
  | ins :: rest =>
      { nameIdx := index + 1
        name := ins.name
        email := ins.email
        phone := ins.phone
        office := ins.office
        officeHours := ins.officeHours } :: populateInstructorsFrom (index + 1) rest

/-- Entry point of `populateInstructors`: the container is cleared first, so
the blocks are rebuilt from position 0. -/
def populateInstructors (instructors : List Instructor) : List InstructorDiv :=
  populateInstructorsFrom 0 instructors

/-- Model of `populateLearningOutcomes(learningOutcomes)` (formUtils.js):
clears `#outcomesAssessmentTable` and builds one row per outcome (indexed by
`data-outcome-index`, not `data-slo-number`) with a single blank assessment
input. -/
def populateLearningOutcomesRows (learningOutcomes : List String) : List OutcomeRow :=
  learningOutcomes.map (fun outcome =>
    { sloNumber := none, outcomeText := outcome, assessmentInputs := [""] })

/-- Model of `populateForm(syllabusData)` (formUtils.js): writes the scalar
fields, then the 18 policy fields (BSN defaults), then rebuilds the program
outcomes / SLO table (the document's `programOutcomes` array is coerced to a
property key), the instructor blocks and the learning-outcome rows.  The
`weightingDetails` branch tests `typeof populateWeightingDetails ===
'function'`, and no binding of that name exists in the module, so it never
runs.  (Arrays are always truthy in JavaScript, so the section guards
`if (syllabusData.X)` do not skip empty arrays.) -/
def populateForm (fd : FormData) (dom : Dom) : Dom :=
  let es1 := populateScalarFields dom.elems fd
  let es2 := populatePolicyFields es1 fd.policiesAndServices
  let dom1 := populateProgramAndSLOs (jsArrayKey fd.programOutcomes) { dom with elems := es2 }
  let dom2 := { dom1 with instructorDivs := populateInstructors fd.instructors }
  { dom2 with outcomeRows := populateLearningOutcomesRows fd.learningOutcomes }

/-! ## Rich-Text Bridge: `syncQuillEditors` (quillUtils.js) -/

/-- Write pass of `syncQuillEditors()`: for every tracked Quill instance
`(id, editorHtml)`, copy `quill.root.innerHTML.trim()` into the element with
that id (warn and skip when the element is missing — which is what
`setElementValue` on an absent id already does). -/
def syncWrites (l : List (String × String)) (es : List Elem) : List Elem :=
  l.foldl (fun es p => setElementValue es p.1 (jsTrim p.2)) es

/-- Model of `syncQuillEditors()` as a DOM transformer. -/
def syncQuillEditors (dom : Dom) : Dom :=
  { dom with elems := syncWrites dom.quillInstances dom.elems }

/-! ## Sync Engine: `saveFormData` (formSubmit.js)

A single invocation of `saveFormData(isAutosave)` is modelled as a function of
the session state, the DOM, and the server's response to the request (should
one be issued).  The steps follow the source order: sync editors, collect,
check `userId`, resolve the syllabus id (session storage first, then the
hidden `#syllabusId` input), skip an unchanged autosave, update
`previousFormData`, validate (manual save only), issue the request, and handle
the response.  `JSON.stringify` equality between the collected document and
the stored snapshot is structural equality: both objects are built by
`collectFormData` with a fixed key order, on which stringification is
injective. -/

/-- HTTP method chosen by `saveFormData`. -/
inductive Method
  | POST
  | PUT
deriving DecidableEq, Repr

/-- The request issued by one save: method, URL, and the payload parts that
matter to the claims. -/
structure Request where
  method : Method
  url : String
  autosave : Bool
  userId : String
  bodySyllabusId : Option String
deriving DecidableEq, Repr

/-- Server response to a save request: success (with the created document's id
on creation), an HTTP error status, or a network failure (rejected fetch). -/
inductive SaveResponse
  | ok (syllabusId : Option String)
  | httpErr (status : Nat)
  | netErr
deriving DecidableEq, Repr

/-- The session-scoped mutable state read and written by `saveFormData`:
`sessionStorage.userId`, `sessionStorage.syllabusId`, and the module-global
`previousFormData`. -/
structure SessionState where
  userId : Option String
  syllabusId : Option String
  previousFormData : Option FormData
deriving DecidableEq, Repr

/-- Result of one `saveFormData` invocation: the updated session state, the
DOM after the editor sync, and the request that was issued (if any). -/
structure SaveResult where
  state : SessionState
  dom : Dom
  request : Option Request
deriving DecidableEq, Repr

/-- Value of the hidden `#syllabusId` input (`null` when the element is
absent). -/
def domSyllabusId (dom : Dom) : Option String :=
  (dom.elems.find? (·.id = "syllabusId")).map (·.value)

/-- Resolution of the syllabus id in `saveFormData`: the session-storage value
when truthy, otherwise the hidden `#syllabusId` input. -/
def resolveSyllabusId (st : SessionState) (dom : Dom) : Option String :=
  if jsTruthy st.syllabusId then st.syllabusId else domSyllabusId dom

/-- Manual-save validation of `saveFormData`: `requiredFields` collects the
top-level keys whose value is `''` or `null`; on the typed document only the
17 scalar strings can be empty (the list/object fields are never `''` or
`null`). -/
def hasMissingRequiredFields (fd : FormData) : Bool :=
  generalFields.any (fun f => (fd.scalar? f).getD "" = "")

/-- Model of one run of `saveFormData(isAutosave)` given the server's
response `resp` to the request (ignored when no request is issued). -/
def saveFormData (isAutosave : Bool) (resp : SaveResponse) (st : SessionState) (dom : Dom) :
    SaveResult :=
  let dom1 := syncQuillEditors dom
  let formData := collectFormData dom1
  match st.userId with
  | none => { state := st, dom := dom1, request := none }
  | some uid =>
      let syllabusId : Option String := resolveSyllabusId st dom1
      if isAutosave ∧ st.previousFormData = some formData then
        { state := st, dom := dom1, request := none }
      else
        let st1 := { st with previousFormData := some formData }
        if ¬isAutosave ∧ hasMissingRequiredFields formData then
          { state := st1, dom := dom1, request := none }
        else
          let req : Request :=
            { method := if jsTruthy syllabusId then .PUT else .POST
              url := if jsTruthy syllabusId then
                       "/syllabus/update/" ++ syllabusId.getD "" else "/syllabus"
              autosave := isAutosave
              userId := uid
              bodySyllabusId := if jsTruthy syllabusId then syllabusId else none }
          match resp with
          | .netErr => { state := st1, dom := dom1, request := some req }
          | .httpErr status =>
              if status = 404 then
                { state := { st1 with syllabusId := none }, dom := dom1, request := some req }
              else
                { state := st1, dom := dom1, request := some req }
          | .ok responseId =>
              if ¬jsTruthy syllabusId ∧ jsTruthy responseId then
                { state := { st1 with syllabusId := responseId }, dom := dom1,
                  request := some req }
              else
                { state := st1, dom := dom1, request := some req }

/-! ## Event-loop trace semantics for overlapping saves

`saveFormData` is `async`: everything up to the `fetch` runs synchronously
when a tick fires, the response handling runs when the response arrives.  To
reason about overlap we split one save into its start (the synchronous
prefix, which may issue a request) and its completion (the response handler),
and count outstanding requests.  The source has no in-flight flag: nothing in
`saveFormData` or `startAutosave` consults whether a previous save is still
outstanding. -/

/-- Sync-engine state during a session: the session state plus the number of
save requests currently in flight. -/
structure EngineState where
  session : SessionState
  inflight : Nat
deriving DecidableEq, Repr

/-- The synchronous prefix of `saveFormData` (up to and including `fetch`):
returns the session state after the pre-await writes and the request issued,
if any. -/
def saveStart (isAutosave : Bool) (st : SessionState) (dom : Dom) :
    SessionState × Option Request :=
  let dom1 := syncQuillEditors dom
  let formData := collectFormData dom1
  match st.userId with
  | none => (st, none)
  | some uid =>
      let syllabusId : Option String := resolveSyllabusId st dom1
      if isAutosave ∧ st.previousFormData = some formData then
        (st, none)
      else
        let st1 := { st with previousFormData := some formData }
        if ¬isAutosave ∧ hasMissingRequiredFields formData then
          (st1, none)
        else
          (st1,
           some { method := if jsTruthy syllabusId then .PUT else .POST
                  url := if jsTruthy syllabusId then
                           "/syllabus/update/" ++ syllabusId.getD "" else "/syllabus"
                  autosave := isAutosave
                  userId := uid
                  bodySyllabusId := if jsTruthy syllabusId then syllabusId else none })

/-- Events of one editing session: an autosave tick (or manual save) firing
against the current DOM, or the arrival of a response to one outstanding
request (`sidTruthyAtSend` records whether the save was an update, which the
response handler closed over). -/
inductive EngineEvent
  | tick (isAutosave : Bool) (dom : Dom)
  | complete (sidTruthyAtSend : Bool) (resp : SaveResponse)

/-- Step of the event-loop semantics.  A `tick` runs the synchronous prefix of
`saveFormData`; if it issues a request the in-flight count grows — the source
consults no in-flight guard before sending.  A `complete` applies the response
handler of one outstanding save. -/
def engineStep (s : EngineState) : EngineEvent → EngineState
  | .tick isAutosave dom =>
      let (st', req) := saveStart isAutosave s.session dom
      { session := st', inflight := s.inflight + (if req.isSome then 1 else 0) }
  | .complete sidTruthy resp =>
      if s.inflight = 0 then s
      else
        let st := s.session
        let st' :=
          match resp with
          | .netErr => st
          | .httpErr status => if status = 404 then { st with syllabusId := none } else st
          | .ok responseId =>
              if ¬sidTruthy ∧ jsTruthy responseId then { st with syllabusId := responseId }
              else st
        { session := st', inflight := s.inflight - 1 }

/-- Run of a sequence of events. -/
def engineRun (s : EngineState) (events : List EngineEvent) : EngineState :=
  events.foldl engineStep s

/-! ## Policy population (`populatePolicies` and the `populateForm` policy pass) -/

/-- Model of `defaultPolicies[program] || defaultPolicies.BSN` in
`populatePolicies`. -/
def defaultPoliciesFor (program : String) : List (String × String) :=
  (alistGet defaultPolicies program).getD defaultPoliciesBSN

/-- Field value resolved by `populatePolicies(syllabusData, program)` for one
policy key: `policies[policy] ?? defaultPoliciesForProgram[policy] ?? ''`. -/
def populatePoliciesValue (pols : List (String × String)) (program key : String) : String :=
  (alistGet pols key).getD ((alistGet (defaultPoliciesFor program) key).getD "")

/-- Model of `populatePolicies(syllabusData, program)` (formUtils.js): writes
the resolved value of each of the 18 fixed policy keys into the element with
that id. -/
def populatePolicies (elems : List Elem) (pols : List (String × String)) (program : String) :
    List Elem :=
  policyKeys.foldl (fun es k => setElementValue es k (populatePoliciesValue pols program k)) elems

/-! ## Concrete inputs used by witnesses and counterexamples -/

/-- An empty DOM skeleton. -/
def emptyDom : Dom :=
  { elems := []
    instructorDivs := []
    sloRows := []
    outcomeRows := []
    weightingRows := []
    modulesContainer := []
    quillInstances := [] }

/-- A DOM whose `#courseTitle` field holds the given text. -/
def titleDom (t : String) : Dom :=
  { emptyDom with elems := [{ id := "courseTitle", value := t, policyKey := none }] }

/-- A session with a logged-in user, no cached syllabus id and no snapshot. -/
def freshSession : SessionState :=
  { userId := some "user-1", syllabusId := none, previousFormData := none }

/-- A modules DOM with one user-filled module block and an empty date picker
(as after loading a stored syllabus whose modules were populated from data
while `#datePicker` was never set). -/
def c10dom : ModulesDom :=
  { moduleSelectCount := some 3
    datePicker := none
    modulesContainer :=
      [{ number := 1
         title := "Week 1 - Foundations"
         datesText := "01/01/2024 - 01/07/2024"
         assignments := ["Read chapter 1"] }] }

/-- An SLO cell already holding the group with placeholder `SLO 2.1`. -/
def c7cell : SloCell :=
  { sloIndex := 2
    groups := [{ placeholder := "SLO 2.1", value := "Existing outcome text" }] }

/-- A session as after loading an existing syllabus by URL: the id is both in
session storage and in the hidden `#syllabusId` input. -/
def urlSession : SessionState :=
  { userId := some "user-1", syllabusId := some "abc123", previousFormData := none }

/-- The DOM of a URL-loaded editing session: hidden `#syllabusId` input plus a
course-title field. -/
def urlDom (t : String) : Dom :=
  { emptyDom with
    elems := [{ id := "syllabusId", value := "abc123", policyKey := none },
              { id := "courseTitle", value := t, policyKey := none }] }

/-- A DOM with a single policy field (id and `data-policy-key` both
`generalPolicies`), initially blank. -/
def c9dom : Dom :=
  { emptyDom with
    elems := [{ id := "generalPolicies", value := "", policyKey := some "generalPolicies" }] }

/-- A stored document whose program is MSN and whose `policiesAndServices` is
empty (all scalar fields blank, no dynamic content). -/
def c9fd : FormData :=
  { programSelect := "MSN"
    courseTitle := "", courseNumber := "", credits := "", placement := ""
    courseType := "", courseDelivery := "", courseLead := "", leadEmail := ""
    leadPhone := "", leadOffice := "", leadOfficeHours := "", courseReqs := ""
    courseDescription := "", requiredMaterials := "", instructionalMethods := ""
    courseCommunications := ""
    instructors := []
    learningOutcomes := []
    assessments := []
    weightingDetails := []
    gradingElements := []
    modules := []
    slo := []
    policiesAndServices := []
    programOutcomes := [] }

/-! ## Road to C1: the populate/assemble round trip

Well-formedness of the markup (the views are not part of the source tree; the
shape is modelled from the spec, §4.4–4.5): each policy field carries its key
both as `data-policy-key` and as its element id, and element ids are unique in
the document. -/

/-- Well-formed DOM: policy markers are id-addressed by their key, and ids are
unique (`document.getElementById` is unambiguous). -/
def WellformedDom (dom : Dom) : Prop :=
  (∀ e ∈ dom.elems, ∀ k, e.policyKey = some k → e.id = k) ∧
  (dom.elems.map (·.id)).Nodup

/-- Relation between an original element and its state after the policy pass:
id and marker unchanged, and for marker elements the trimmed value is
unchanged (the pass rewrites a marker only with the trim of its own collected
value). -/
def PolicySim (e1 e2 : Elem) : Prop :=
  e2.id = e1.id ∧ e2.policyKey = e1.policyKey ∧
    ∀ k, e1.policyKey = some k → k ≠ "" → jsTrim e2.value = jsTrim e1.value

/-- Trim applied fieldwise to a collected instructor (the assembler trims each
field on read). -/
def trimInstructor (i : Instructor) : Instructor :=
  { name := jsTrim i.name
    email := jsTrim i.email
    phone := jsTrim i.phone
    office := jsTrim i.office
    officeHours := jsTrim i.officeHours }

/-- A small concrete document for the C1 witness: program BSN, a course title,
and one stored policy. -/
def c1doc : FormData :=
  { c9fd with
    programSelect := "BSN"
    courseTitle := "Intro to Nursing"
    policiesAndServices := [("attendance", "Be there.")] }

/-- A small concrete DOM for the C1 witness: a title field and one policy
field marked with `data-policy-key`. -/
def c1dom : Dom :=
  { emptyDom with
    elems := [{ id := "courseTitle", value := "", policyKey := none },
              { id := "attendance", value := "", policyKey := some "attendance" }] }

theorem head_dropWhile_not (p : Char → Bool) (l : List Char) {a : Char}
    (h : (l.dropWhile p).head? = some a) : p a = false := by
  induction l with
  | nil => simp at h
  | cons b l ih =>
    by_cases hb : p b
    · rw [List.dropWhile_cons_of_pos hb] at h
      exact ih h
    · rw [List.dropWhile_cons_of_neg hb] at h
      simp at h
      subst h
      simpa using hb

theorem getLast_dropWhile (p : Char → Bool) (l : List Char)
    (h : l.dropWhile p ≠ []) : (l.dropWhile p).getLast? = l.getLast? := by
  induction l with
  | nil => simp at h
  | cons b l ih =>
    by_cases hb : p b
    · rw [List.dropWhile_cons_of_pos hb] at h ⊢
      rcases l with _ | ⟨c, l⟩
      · simp at h
      · rw [ih h, List.getLast?_cons_cons]
    · rw [List.dropWhile_cons_of_neg hb]

theorem dropWhile_of_head_not (p : Char → Bool) (l : List Char)
    (h : ∀ a, l.head? = some a → p a = false) : l.dropWhile p = l := by
  rcases l with _ | ⟨b, l⟩
  · rfl
  · exact List.dropWhile_cons_of_neg (by simpa using h b rfl)

theorem jsTrimList_head (l : List Char) {a : Char}
    (h : (jsTrimList l).head? = some a) : jsIsWs a = false := by
  unfold jsTrimList at h
  rw [List.head?_reverse] at h
  rcases hu : (l.dropWhile jsIsWs).reverse.dropWhile jsIsWs with _ | ⟨c, u⟩
  · rw [hu] at h; simp at h
  · have hne : (l.dropWhile jsIsWs).reverse.dropWhile jsIsWs ≠ [] := by
      rw [hu]; simp
    rw [getLast_dropWhile _ _ hne, List.getLast?_reverse] at h
    exact head_dropWhile_not _ _ h

theorem jsTrimList_getLast (l : List Char) {a : Char}
    (h : (jsTrimList l).getLast? = some a) : jsIsWs a = false := by
  unfold jsTrimList at h
  rw [List.getLast?_reverse] at h
  exact head_dropWhile_not _ _ h

/-- Trimming is idempotent (needed for the populate/assemble round-trip: the
assembler trims values that the populator writes back verbatim). -/
theorem jsTrimList_idem (l : List Char) : jsTrimList (jsTrimList l) = jsTrimList l := by
  have h1 : (jsTrimList l).dropWhile jsIsWs = jsTrimList l :=
    dropWhile_of_head_not _ _ (fun a ha => jsTrimList_head l ha)
  have h2 : (jsTrimList l).reverse.dropWhile jsIsWs = (jsTrimList l).reverse := by
    apply dropWhile_of_head_not
    intro a ha
    rw [List.head?_reverse] at ha
    exact jsTrimList_getLast l ha
  show ((((jsTrimList l).dropWhile jsIsWs).reverse.dropWhile jsIsWs)).reverse = jsTrimList l
  rw [h1, h2, List.reverse_reverse]

theorem jsTrim_idem (s : String) : jsTrim (jsTrim s) = jsTrim s := by
  unfold jsTrim
  exact congrArg String.mk (jsTrimList_idem s.data)

/-! ## Claim C6 -/

/-- C6: for every start date `S` and module number `N` between 1 and 20, the
module created by `addModule` displays the date range
`[S + 7*(N-1), S + 7*(N-1) + 6]`, both endpoints formatted `MM/DD/YYYY`; in
particular for `S = 2024-01-01` and `N = 3` the displayed range is
`01/15/2024 - 01/21/2024`. -/
theorem C6_addModule_date_range :
    (∀ (S N : Int), 1 ≤ N → N ≤ 20 →
        (addModule N S).datesText =
          formatDate (S + 7 * (N - 1)) ++ " - " ++ formatDate (S + 7 * (N - 1) + 6)) ∧
    (addModule 3 (daysFromCivil 2024 1 1)).datesText = "01/15/2024 - 01/21/2024" := by
  constructor
  · intro S N _ _
    show formatDate (S + (N - 1) * 7) ++ " - " ++ formatDate (S + (N - 1) * 7 + 6) = _
    rw [Int.mul_comm]
  · decide

/-- Witness for C6 at `S = 2024-01-01`, `N = 3`. -/
theorem C6_addModule_date_range_witness :
    (addModule 3 (daysFromCivil 2024 1 1)).datesText =
      formatDate (daysFromCivil 2024 1 1 + 7 * (3 - 1)) ++ " - " ++
        formatDate (daysFromCivil 2024 1 1 + 7 * (3 - 1) + 6) :=
  C6_addModule_date_range.1 (daysFromCivil 2024 1 1) 3 (by decide) (by decide)

/-! ## Claim C7 -/

/-- C7: invoking `addSLOInput` when a textarea with the placeholder for key
`o.s` already exists under the outcome is rejected — the cell is unchanged and
the group count is unchanged — and the add operation preserves
placeholder-uniqueness, so the UI never shows two SLO groups with the same key
under one outcome. -/
theorem C7_addSLOInput_duplicate_rejected :
    (∀ (cell : SloCell) (o s : Nat) (v : String),
        (cell.groups.map (·.placeholder)).contains (s!"SLO {o}.{s}") →
        addSLOInput cell o s v = cell ∧
        (addSLOInput cell o s v).groups.length = cell.groups.length) ∧
    (∀ (cell : SloCell) (o s : Nat) (v : String),
        (cell.groups.map (·.placeholder)).Nodup →
        ((addSLOInput cell o s v).groups.map (·.placeholder)).Nodup) := by
  constructor
  · intro cell o s v h
    have : addSLOInput cell o s v = cell := by
      unfold addSLOInput
      simp only [h, if_pos]
    exact ⟨this, by rw [this]⟩
  · intro cell o s v h
    by_cases hc : (cell.groups.map (·.placeholder)).contains (s!"SLO {o}.{s}")
    · unfold addSLOInput
      simp only [hc, if_pos]
      exact h
    · unfold addSLOInput
      simp only [hc, if_neg, Bool.false_eq_true, not_false_eq_true]
      simp only [List.map_append, List.map_cons, List.map_nil]
      rw [List.nodup_append]
      refine ⟨h, List.nodup_singleton _, ?_⟩
      intro a ha hb
      simp at hb
      subst hb
      exact hc (List.elem_eq_true_of_mem ha)

/-- Witness for C7: adding `SLO 2.1` to a cell that already holds it leaves
the cell unchanged. -/
theorem C7_addSLOInput_duplicate_rejected_witness :
    addSLOInput c7cell 2 1 "new text" = c7cell ∧
    (addSLOInput c7cell 2 1 "new text").groups.length = c7cell.groups.length :=
  C7_addSLOInput_duplicate_rejected.1 c7cell 2 1 "new text" (by decide)

/-! ## Claim C8 -/

/-- C8: `updateTotalWeight` displays the exact sum of the weight inputs
followed by a percent sign and flags the display exactly when the sum exceeds
100; `[30, 30, 50]` gives `"110%"` flagged, `[40, 60]` gives `"100%"`
unflagged, and the weighting rows are invisible to the assembled document, so
a total over 100 never blocks saving. -/
theorem C8_updateTotalWeight :
    (∀ rows : List WeightInput,
        (updateTotalWeight rows).1 =
          toString (((rows.filter (·.name = "weight")).map (fun i => i.value.getD 0)).sum) ++ "%" ∧
        ((updateTotalWeight rows).2 = true ↔
          ((rows.filter (·.name = "weight")).map (fun i => i.value.getD 0)).sum > 100)) ∧
    updateTotalWeight
        [{ name := "weight", value := some 30 }, { name := "weight", value := some 30 },
         { name := "weight", value := some 50 }] = ("110%", true) ∧
    updateTotalWeight
        [{ name := "weight", value := some 40 }, { name := "weight", value := some 60 }]
      = ("100%", false) ∧
    (∀ (dom : Dom) (rows : List WeightInput),
        collectFormData { dom with weightingRows := rows } = collectFormData dom) := by
  refine ⟨?_, by decide, by decide, fun dom rows => rfl⟩
  intro rows
  have hsum : totalWeight rows =
      ((rows.filter (·.name = "weight")).map (fun i => i.value.getD 0)).sum := by
    unfold totalWeight
    rw [List.sum_eq_foldl, List.foldl_map]
  constructor
  · show toString (totalWeight rows) ++ "%" = _
    rw [hsum]
  · show (decide (totalWeight rows > 100)) = true ↔ _
    rw [hsum]
    exact decide_eq_true_iff

/-! ## Claim C10 -/

/-- C10 (amended): a change event on the module-count selector or the start
date picker invokes `generateModules`, which — when the date picker holds a
valid date — clears the modules container and rebuilds every module block with
an empty title and a single empty assignment; when the start date is missing
or invalid it warns and leaves the DOM (including all entered module titles
and assignments) unchanged. -/
theorem C10_generateModules_rebuild :
    (∀ (dom : ModulesDom) (d : Int), dom.datePicker = some d →
        (generateModules dom).modulesContainer =
          (List.range (dom.moduleSelectCount.getD 0)).map (fun i => addModule (i + 1 : Nat) d) ∧
        ∀ blk ∈ (generateModules dom).modulesContainer,
          blk.title = "" ∧ blk.assignments = [""]) ∧
    (∀ dom : ModulesDom, dom.datePicker = none → generateModules dom = dom) := by
  constructor
  · intro dom d hd
    constructor
    · unfold generateModules
      rw [hd]
    · intro blk hblk
      unfold generateModules at hblk
      rw [hd] at hblk
      simp only [List.mem_map] at hblk
      obtain ⟨i, _, rfl⟩ := hblk
      exact ⟨rfl, rfl⟩
  · intro dom hd
    unfold generateModules
    rw [hd]

/-- Witness for C10 (amended) at a concrete DOM with a selected date. -/
theorem C10_generateModules_rebuild_witness :
    (generateModules { c10dom with datePicker := some (daysFromCivil 2024 1 1) }).modulesContainer
      = (List.range 3).map (fun i => addModule (i + 1 : Nat) (daysFromCivil 2024 1 1)) :=
  (C10_generateModules_rebuild.1 { c10dom with datePicker := some (daysFromCivil 2024 1 1) }
    (daysFromCivil 2024 1 1) rfl).1

/-- Counterexample for C10 as stated: with one populated module and an empty
date picker, a change event runs `generateModules`, which leaves the container
unchanged — the user-entered module title survives, contradicting "clears the
entire modules container ... no previously entered module title or assignment
text is preserved". -/
theorem C10_generateModules_counterexample :
    generateModules c10dom = c10dom ∧
    ∃ blk ∈ (generateModules c10dom).modulesContainer,
      blk.title ≠ "" ∧ blk.assignments ≠ [""] := by
  refine ⟨rfl, ?_⟩
  decide

/-! ## Claim C9 -/

/-- C9 (amended): for each of the 18 fixed policy keys the stored value, when
present, is used as-is; otherwise a program default is used and the result is
never undefined or null — but the two population paths pick the default
differently: `populatePolicies` uses the selected program's default table
(BSN, MSN or DNP; unknown programs fall back to BSN), while `populateForm`'s
policy pass always uses the BSN defaults, whatever program is selected.  For
every one of the 18 keys each program table has an entry, so the final `?? ''`
fallback is never reached. -/
theorem C9_policy_priority :
    (∀ (pols : List (String × String)) (key : String), key ∈ policyKeys →
        (∀ v, alistGet pols key = some v →
          (∀ program, populatePoliciesValue pols program key = v) ∧
          populateFormPolicyValue pols key = v) ∧
        (alistGet pols key = none →
          populatePoliciesValue pols "BSN" key = (alistGet defaultPoliciesBSN key).getD "" ∧
          populatePoliciesValue pols "MSN" key = (alistGet defaultPoliciesMSN key).getD "" ∧
          populatePoliciesValue pols "DNP" key = (alistGet defaultPoliciesDNP key).getD "" ∧
          populateFormPolicyValue pols key = (alistGet defaultPoliciesBSN key).getD "" ∧
          (alistGet defaultPoliciesBSN key).isSome = true ∧
          (alistGet defaultPoliciesMSN key).isSome = true ∧
          (alistGet defaultPoliciesDNP key).isSome = true)) ∧
    (∀ (pols : List (String × String)) (program key : String),
        alistGet defaultPolicies program = none →
        populatePoliciesValue pols program key = populateFormPolicyValue pols key) := by
  constructor
  · intro pols key hkey
    constructor
    · intro v hv
      refine ⟨fun program => ?_, ?_⟩
      · unfold populatePoliciesValue
        rw [hv, Option.getD_some]
      · unfold populateFormPolicyValue
        rw [hv, Option.getD_some]
    · intro h0
      unfold populatePoliciesValue populateFormPolicyValue defaultPoliciesFor
      rw [h0]
      fin_cases hkey <;> exact ⟨rfl, rfl, rfl, rfl, rfl, rfl, rfl⟩
  · intro pols program key h0
    unfold populatePoliciesValue populateFormPolicyValue defaultPoliciesFor
    rw [h0, Option.getD_none]

/-- Witness for C9 (amended) at `key = attendance` with an empty stored
policies object and program MSN. -/
theorem C9_policy_priority_witness :
    populatePoliciesValue [] "MSN" "attendance" = (alistGet defaultPoliciesMSN "attendance").getD "" :=
  ((C9_policy_priority.1 [] "attendance" (by decide)).2 rfl).2.1

/-- Counterexample for C9 as stated: population through `populateForm` of a
document whose program is MSN and whose stored policies are empty writes the
BSN default text into `#generalPolicies`, and the BSN default differs from the
MSN program default — so the "selected program's default" is not what this
path uses. -/
theorem C9_policy_priority_counterexample :
    getValueById (populateForm c9fd c9dom).elems "generalPolicies"
        = (alistGet defaultPoliciesBSN "generalPolicies").getD "" ∧
    (alistGet defaultPoliciesBSN "generalPolicies").getD ""
        ≠ (alistGet defaultPoliciesMSN "generalPolicies").getD "" := by
  constructor
  · rfl
  · decide

/-! ## Algebra of element writes (for editor-sync idempotence) -/

theorem setElementValue_getValueById (es : List Elem) (id : String) :
    setElementValue es id (getValueById es id) = es := by
  induction es with
  | nil => rfl
  | cons e rest ih =>
    by_cases h : e.id = id
    · subst h
      simp [setElementValue, getValueById, List.find?_cons]
    · simp only [setElementValue, getValueById, List.find?_cons, h]
      simp only [decide_eq_true_eq, h, if_neg, decide_False]
      rw [show (getValueById rest id) = _ from rfl] at ih
      simpa [getValueById] using congrArg (List.cons e) ih

theorem setElementValue_absorb (es : List Elem) (id v w : String) :
    setElementValue (setElementValue es id v) id w = setElementValue es id w := by
  induction es with
  | nil => rfl
  | cons e rest ih =>
    by_cases h : e.id = id
    · simp [setElementValue, h]
    · simp [setElementValue, h, ih]

theorem setElementValue_comm (es : List Elem) (i j v w : String) (hij : i ≠ j) :
    setElementValue (setElementValue es i v) j w
      = setElementValue (setElementValue es j w) i v := by
  induction es with
  | nil => rfl
  | cons e rest ih =>
    by_cases hi : e.id = i
    · have hj : e.id ≠ j := by rw [hi]; exact hij
      simp [setElementValue, hi, hj, hij]
    · by_cases hj : e.id = j
      · simp [setElementValue, hi, hj, hij, Ne.symm hij]
      · simp [setElementValue, hi, hj, ih]

theorem syncWrites_write_mem (l : List (String × String)) (es : List Elem) (id v : String)
    (h : l.any (·.1 = id)) :
    syncWrites l (setElementValue es id v) = syncWrites l es := by
  induction l generalizing es with
  | nil => simp at h
  | cons q t ih =>
    by_cases hq : q.1 = id
    · show syncWrites t (setElementValue (setElementValue es id v) q.1 (jsTrim q.2))
        = syncWrites t (setElementValue es q.1 (jsTrim q.2))
      rw [hq, setElementValue_absorb]
    · have ht : t.any (·.1 = id) := by
        simp only [List.any_cons, Bool.or_eq_true, decide_eq_true_eq] at h
        rcases h with h | h
        · exact absurd h hq
        · exact h
      show syncWrites t (setElementValue (setElementValue es id v) q.1 (jsTrim q.2))
        = syncWrites t (setElementValue es q.1 (jsTrim q.2))
      rw [setElementValue_comm es id q.1 v (jsTrim q.2) (fun he => hq he.symm), ih _ ht]

theorem syncWrites_write_not_mem (l : List (String × String)) (es : List Elem) (id v : String)
    (h : ¬ l.any (·.1 = id)) :
    syncWrites l (setElementValue es id v) = setElementValue (syncWrites l es) id v := by
  induction l generalizing es with
  | nil => rfl
  | cons q t ih =>
    have hq : q.1 ≠ id := by
      intro he
      exact h (by simp [List.any_cons, he])
    have ht : ¬ t.any (·.1 = id) := by
      intro he
      exact h (by simp [List.any_cons, he])
    show syncWrites t (setElementValue (setElementValue es id v) q.1 (jsTrim q.2))
      = setElementValue (syncWrites t (setElementValue es q.1 (jsTrim q.2))) id v
    rw [setElementValue_comm es id q.1 v (jsTrim q.2) (fun he => hq he.symm), ih _ ht]

theorem syncWrites_idem (l : List (String × String)) (es : List Elem) :
    syncWrites l (syncWrites l es) = syncWrites l es := by
  induction l generalizing es with
  | nil => rfl
  | cons q t ih =>
    show syncWrites t (setElementValue (syncWrites t (setElementValue es q.1 (jsTrim q.2)))
          q.1 (jsTrim q.2))
      = syncWrites t (setElementValue es q.1 (jsTrim q.2))
    by_cases hmem : t.any (·.1 = q.1)
    · rw [syncWrites_write_mem t _ _ _ hmem, ih]
    · have h1 : syncWrites t (setElementValue es q.1 (jsTrim q.2))
          = setElementValue (syncWrites t es) q.1 (jsTrim q.2) :=
        syncWrites_write_not_mem t es q.1 (jsTrim q.2) hmem
      calc syncWrites t (setElementValue (syncWrites t (setElementValue es q.1 (jsTrim q.2)))
              q.1 (jsTrim q.2))
          = syncWrites t (setElementValue (setElementValue (syncWrites t es) q.1 (jsTrim q.2))
              q.1 (jsTrim q.2)) := by rw [h1]
        _ = syncWrites t (setElementValue (syncWrites t es) q.1 (jsTrim q.2)) := by
              rw [setElementValue_absorb]
        _ = setElementValue (syncWrites t (syncWrites t es)) q.1 (jsTrim q.2) :=
              syncWrites_write_not_mem t _ q.1 (jsTrim q.2) hmem
        _ = setElementValue (syncWrites t es) q.1 (jsTrim q.2) := by rw [ih]
        _ = syncWrites t (setElementValue es q.1 (jsTrim q.2)) := h1.symm

/-- Syncing the Quill editors twice is the same as syncing once: the written
values depend only on the (unchanged) editor contents. -/
theorem syncQuillEditors_idem (dom : Dom) :
    syncQuillEditors (syncQuillEditors dom) = syncQuillEditors dom := by
  unfold syncQuillEditors
  simp only
  rw [syncWrites_idem]

/-! ## Branch facts about `saveFormData` -/

theorem saveFormData_dom (a : Bool) (r : SaveResponse) (st : SessionState) (dom : Dom) :
    (saveFormData a r st dom).dom = syncQuillEditors dom := by
  unfold saveFormData
  cases st.userId with
  | none => rfl
  | some uid =>
    dsimp only
    split
    · rfl
    · split
      · rfl
      · cases r with
        | netErr => rfl
        | httpErr status => dsimp only; split <;> rfl
        | ok rid => dsimp only; split <;> rfl

theorem saveFormData_userId (a : Bool) (r : SaveResponse) (st : SessionState) (dom : Dom) :
    (saveFormData a r st dom).state.userId = st.userId := by
  unfold saveFormData
  cases hu : st.userId with
  | none => exact hu
  | some uid =>
    dsimp only
    split
    · exact hu
    · split
      · rfl
      · cases r with
        | netErr => rfl
        | httpErr status => dsimp only; split <;> rfl
        | ok rid => dsimp only; split <;> rfl

theorem saveFormData_state_of_no_user (a : Bool) (r : SaveResponse) (st : SessionState)
    (dom : Dom) (h : st.userId = none) : (saveFormData a r st dom).state = st := by
  unfold saveFormData
  rw [h]

theorem saveFormData_request_of_no_user (a : Bool) (r : SaveResponse) (st : SessionState)
    (dom : Dom) (h : st.userId = none) : (saveFormData a r st dom).request = none := by
  unfold saveFormData
  rw [h]

theorem saveFormData_prev_autosave (r : SaveResponse) (st : SessionState) (dom : Dom)
    (uid : String) (h : st.userId = some uid) :
    (saveFormData true r st dom).state.previousFormData
      = some (collectFormData (syncQuillEditors dom)) := by
  unfold saveFormData
  rw [h]
  dsimp only
  split
  · rename_i hc
    exact hc.2
  · have : ¬(¬true = true ∧
        hasMissingRequiredFields (collectFormData (syncQuillEditors dom)) = true) := by
      intro hx
      simp at hx
    rw [if_neg this]
    cases r with
    | netErr => rfl
    | httpErr status => dsimp only; split <;> rfl
    | ok rid => dsimp only; split <;> rfl

/-! ## Claim C2 -/

/-- C2: if autosave (`saveFormData` with `isAutosave = true`) is invoked twice
in succession with no intervening DOM change, the second invocation issues no
network request: the freshly assembled document is compared by deep equality
(`JSON.stringify`) against the snapshot kept in `previousFormData` and the
save is skipped when they are identical.  The statement quantifies over the
responses of the first save, covering success and failure. -/
theorem C2_autosave_skip_unchanged (st : SessionState) (dom : Dom) (r1 r2 : SaveResponse) :
    (saveFormData true r2 (saveFormData true r1 st dom).state
        (saveFormData true r1 st dom).dom).request = none := by
  have hdom : (saveFormData true r1 st dom).dom = syncQuillEditors dom :=
    saveFormData_dom true r1 st dom
  cases hu : st.userId with
  | none =>
    have hst : (saveFormData true r1 st dom).state = st :=
      saveFormData_state_of_no_user true r1 st dom hu
    rw [hst, hdom]
    exact saveFormData_request_of_no_user true r2 st (syncQuillEditors dom) hu
  | some uid =>
    have hu2 : (saveFormData true r1 st dom).state.userId = some uid := by
      rw [saveFormData_userId, hu]
    have hprev : (saveFormData true r1 st dom).state.previousFormData
        = some (collectFormData (syncQuillEditors dom)) :=
      saveFormData_prev_autosave r1 st dom uid hu
    rw [hdom]
    generalize hg : (saveFormData true r1 st dom).state = st1 at hu2 hprev
    unfold saveFormData
    rw [hu2]
    dsimp only
    rw [if_pos ⟨rfl, by rw [hprev, syncQuillEditors_idem]⟩]

/-! ## Claim C3 -/

/-- Counterexample for C3 as stated: from a fresh session, an autosave tick
starts a save of the DOM reading "Alpha"; before the response arrives the DOM
changes to "Beta" and the next tick fires.  The source has no in-flight guard
— the second tick's document differs from the snapshot, so it sends too, and
the session reaches a state with two save requests outstanding. -/
theorem C3_overlap_counterexample :
    (engineRun { session := freshSession, inflight := 0 }
        [.tick true (titleDom "Alpha"), .tick true (titleDom "Beta")]).inflight = 2 ∧
    ¬ (engineRun { session := freshSession, inflight := 0 }
        [.tick true (titleDom "Alpha"), .tick true (titleDom "Beta")]).inflight ≤ 1 := by
  constructor <;> decide

/-- C3 (amended): the sync engine has no in-flight guard; a tick that starts
while a prior save is outstanding is dropped only by change detection — when
the assembled document equals the `previousFormData` snapshot the tick logs
and returns without a request (whatever the in-flight count) — and a tick
whose document differs issues a request even while a save is outstanding, so
two saves can be in flight at once. -/
theorem C3_no_inflight_guard :
    (∀ (s : EngineState) (dom : Dom),
        s.session.previousFormData = some (collectFormData (syncQuillEditors dom)) →
        engineStep s (.tick true dom) = s) ∧
    (engineRun { session := freshSession, inflight := 0 }
        [.tick true (titleDom "Alpha"), .tick true (titleDom "Beta")]).inflight = 2 := by
  constructor
  · intro s dom hprev
    unfold engineStep saveStart
    cases hu : s.session.userId with
    | none => simp
    | some uid =>
      dsimp only
      rw [if_pos ⟨rfl, hprev⟩]
      simp
  · decide

/-- Witness for C3 (amended): a tick against an unchanged DOM, fired while one
save is in flight, leaves the engine state untouched. -/
theorem C3_no_inflight_guard_witness :
    engineStep
        { session :=
            { freshSession with
              previousFormData := some (collectFormData (syncQuillEditors (titleDom "Alpha"))) }
          inflight := 1 }
        (.tick true (titleDom "Alpha"))
      = { session :=
            { freshSession with
              previousFormData := some (collectFormData (syncQuillEditors (titleDom "Alpha"))) }
          inflight := 1 } :=
  C3_no_inflight_guard.1 _ (titleDom "Alpha") rfl

/-! ## Claim C4 -/

/-- Counterexample for C4 as stated: an autosave against a fresh session fails
with a network error; a request was issued, yet the snapshot
(`previousFormData`) has already been overwritten — it was assigned before the
`fetch` was awaited — so a failed save does not leave the locally cached state
unchanged. -/
theorem C4_optimistic_snapshot_counterexample :
    (saveFormData true .netErr freshSession (titleDom "Alpha")).request.isSome = true ∧
    (saveFormData true .netErr freshSession (titleDom "Alpha")).state.previousFormData
      ≠ freshSession.previousFormData := by
  constructor <;> decide

/-- C4 (amended): the cached syllabus id is written only from the response
handlers — a network error or a non-404 server error leaves it unchanged (only
a 404 clears it and only a successful create fills it) — but the last-saved
snapshot `previousFormData` is written before the request is issued: its final
value does not depend on the response at all, and whenever a request is
issued it already holds the assembled document. -/
theorem C4_writes_after_response :
    (∀ (a : Bool) (st : SessionState) (dom : Dom),
        (saveFormData a .netErr st dom).state.syllabusId = st.syllabusId ∧
        ∀ status, status ≠ 404 →
          (saveFormData a (.httpErr status) st dom).state.syllabusId = st.syllabusId) ∧
    (∀ (a : Bool) (r r' : SaveResponse) (st : SessionState) (dom : Dom),
        (saveFormData a r st dom).state.previousFormData
          = (saveFormData a r' st dom).state.previousFormData) ∧
    (∀ (a : Bool) (r : SaveResponse) (st : SessionState) (dom : Dom),
        (saveFormData a r st dom).request.isSome = true →
        (saveFormData a r st dom).state.previousFormData
          = some (collectFormData (syncQuillEditors dom))) := by
  refine ⟨?_, ?_, ?_⟩
  · intro a st dom
    constructor
    · unfold saveFormData
      cases hu : st.userId with
      | none => rfl
      | some uid =>
        dsimp only
        split
        · rfl
        · split <;> rfl
    · intro status hstatus
      unfold saveFormData
      cases hu : st.userId with
      | none => rfl
      | some uid =>
        dsimp only
        split
        · rfl
        · split
          · rfl
          · rfl
  · intro a r r' st dom
    have key : ∀ rr, (saveFormData a rr st dom).state.previousFormData
        = (saveFormData a .netErr st dom).state.previousFormData := by
      intro rr
      unfold saveFormData
      cases hu : st.userId with
      | none => rfl
      | some uid =>
        dsimp only
        split
        · rfl
        · split
          · rfl
          · cases rr with
            | netErr => rfl
            | httpErr status => dsimp only; split <;> rfl
            | ok rid => dsimp only; split <;> rfl
    rw [key r, key r']
  · intro a r st dom
    unfold saveFormData
    cases hu : st.userId with
    | none => intro h; simp at h
    | some uid =>
      dsimp only
      split
      · intro h; simp at h
      · split
        · intro h; simp at h
        · cases r with
          | netErr => intro _; rfl
          | httpErr status => dsimp only; split <;> (intro _; rfl)
          | ok rid => dsimp only; split <;> (intro _; rfl)

/-- Witness for C4 (amended), instantiating the non-404 part at status 500 and
the issued-request part at a concrete failing autosave. -/
theorem C4_writes_after_response_witness :
    (saveFormData true (.httpErr 500) freshSession (titleDom "Alpha")).state.syllabusId
        = freshSession.syllabusId ∧
    (saveFormData true .netErr freshSession (titleDom "Alpha")).state.previousFormData
        = some (collectFormData (syncQuillEditors (titleDom "Alpha"))) := by
  constructor
  · exact (C4_writes_after_response.1 true freshSession (titleDom "Alpha")).2 500 (by decide)
  · exact C4_writes_after_response.2.2 true .netErr freshSession (titleDom "Alpha") (by decide)

theorem saveFormData_request_none_of_skip (a : Bool) (r : SaveResponse) (st : SessionState)
    (dom : Dom) (uid : String) (hu : st.userId = some uid)
    (h : a = true ∧ st.previousFormData = some (collectFormData (syncQuillEditors dom))) :
    (saveFormData a r st dom).request = none := by
  unfold saveFormData
  rw [hu]
  dsimp only
  rw [if_pos h]

theorem saveFormData_request_none_of_validation (a : Bool) (r : SaveResponse)
    (st : SessionState) (dom : Dom) (uid : String) (hu : st.userId = some uid)
    (h : ¬a = true ∧ hasMissingRequiredFields (collectFormData (syncQuillEditors dom)) = true) :
    (saveFormData a r st dom).request = none := by
  unfold saveFormData
  rw [hu]
  dsimp only
  split
  · rfl
  · rfl

theorem saveFormData_ok_syllabusId (a : Bool) (st : SessionState) (dom : Dom)
    (rid : Option String) (uid : String) (hu : st.userId = some uid)
    (h1 : ¬(a = true ∧ st.previousFormData = some (collectFormData (syncQuillEditors dom))))
    (h2 : ¬(¬a = true ∧ hasMissingRequiredFields (collectFormData (syncQuillEditors dom)) = true))
    (hcond : ¬ jsTruthy (resolveSyllabusId st (syncQuillEditors dom)) = true ∧
      jsTruthy rid = true) :
    (saveFormData a (.ok rid) st dom).state.syllabusId = rid := by
  unfold saveFormData
  rw [hu]
  dsimp only
  rw [if_neg h1, if_neg h2]
  try dsimp only
  rw [if_pos hcond]

/-- Characterization of the request issued by `saveFormData`: method and URL
are chosen by the truthiness of the resolved syllabus id. -/
theorem saveFormData_request_spec (a : Bool) (r : SaveResponse) (st : SessionState) (dom : Dom)
    (req : Request) (h : (saveFormData a r st dom).request = some req) :
    req.method = (if jsTruthy (resolveSyllabusId st (syncQuillEditors dom)) then
        Method.PUT else Method.POST) ∧
    req.url = (if jsTruthy (resolveSyllabusId st (syncQuillEditors dom)) then
        "/syllabus/update/" ++ (resolveSyllabusId st (syncQuillEditors dom)).getD ""
      else "/syllabus") := by
  unfold saveFormData at h
  cases hu : st.userId with
  | none => rw [hu] at h; simp at h
  | some uid =>
    rw [hu] at h
    dsimp only at h
    split at h
    · simp at h
    · split at h
      · simp at h
      · cases r with
        | netErr =>
          injection h with h
          subst h
          exact ⟨rfl, rfl⟩
        | httpErr status =>
          dsimp only at h
          split at h <;> (injection h with h; subst h; exact ⟨rfl, rfl⟩)
        | ok rid =>
          dsimp only at h
          split at h <;> (injection h with h; subst h; exact ⟨rfl, rfl⟩)

/-! ## Claim C5 -/

/-- Counterexample for C5 as stated: in a session that loaded an existing
syllabus (id in session storage and in the hidden `#syllabusId` input), an
update gets a 404 — the session-storage id is cleared — yet the next save
resolves the id from the hidden DOM input again and issues another update
(PUT), not a create. -/
theorem C5_404_counterexample :
    (saveFormData true (.httpErr 404) urlSession (urlDom "Alpha")).state.syllabusId = none ∧
    ((saveFormData true (.ok none)
        (saveFormData true (.httpErr 404) urlSession (urlDom "Alpha")).state
        (urlDom "Beta")).request.map (·.method)) = some .PUT := by
  constructor <;> decide

/-- C5 (amended): a save with no cached id anywhere (session storage and the
hidden input both untruthy) issues a create (POST to `/syllabus`); a
successful create caches the truthy returned id; a save with a truthy
session-storage id issues an update (PUT) to that id; a 404 during a save
clears the session-storage id; and the next save issues a create exactly when
the hidden `#syllabusId` DOM input is also absent or empty — otherwise it
retries an update with the DOM-held id. -/
theorem C5_create_update_cycle :
    (∀ (a : Bool) (r : SaveResponse) (st : SessionState) (dom : Dom) (req : Request),
        ¬ jsTruthy (resolveSyllabusId st (syncQuillEditors dom)) = true →
        (saveFormData a r st dom).request = some req →
        req.method = .POST ∧ req.url = "/syllabus") ∧
    (∀ (a : Bool) (st : SessionState) (dom : Dom) (rid : Option String),
        ¬ jsTruthy (resolveSyllabusId st (syncQuillEditors dom)) = true →
        jsTruthy rid = true →
        (saveFormData a (.ok rid) st dom).request.isSome = true →
        (saveFormData a (.ok rid) st dom).state.syllabusId = rid) ∧
    (∀ (a : Bool) (r : SaveResponse) (st : SessionState) (dom : Dom) (req : Request),
        jsTruthy st.syllabusId = true →
        (saveFormData a r st dom).request = some req →
        req.method = .PUT ∧ req.url = "/syllabus/update/" ++ st.syllabusId.getD "") ∧
    (∀ (a : Bool) (st : SessionState) (dom : Dom),
        (saveFormData a (.httpErr 404) st dom).state.syllabusId = none ∨
        (saveFormData a (.httpErr 404) st dom).request = none) ∧
    (∀ (a : Bool) (r : SaveResponse) (st : SessionState) (dom : Dom) (req : Request),
        st.syllabusId = none →
        (saveFormData a r st dom).request = some req →
        (req.method = .POST ↔
          ¬ jsTruthy (domSyllabusId (syncQuillEditors dom)) = true)) := by
  refine ⟨?_, ?_, ?_, ?_, ?_⟩
  · intro a r st dom req hid h
    rcases saveFormData_request_spec a r st dom req h with ⟨hm, hurl⟩
    rw [if_neg hid] at hm
    rw [if_neg hid] at hurl
    exact ⟨hm, hurl⟩
  · intro a st dom rid hid hrid hsome
    cases hu : st.userId with
    | none =>
      rw [saveFormData_request_of_no_user a (.ok rid) st dom hu] at hsome
      simp at hsome
    | some uid =>
      by_cases h1 : a = true ∧ st.previousFormData
          = some (collectFormData (syncQuillEditors dom))
      · rw [saveFormData_request_none_of_skip a (.ok rid) st dom uid hu h1] at hsome
        simp at hsome
      · by_cases h2 : ¬a = true ∧
            hasMissingRequiredFields (collectFormData (syncQuillEditors dom)) = true
        · rw [saveFormData_request_none_of_validation a (.ok rid) st dom uid hu h2] at hsome
          simp at hsome
        · exact saveFormData_ok_syllabusId a st dom rid uid hu h1 h2 ⟨hid, hrid⟩
  · intro a r st dom req hsid h
    have hres : resolveSyllabusId st (syncQuillEditors dom) = st.syllabusId := by
      unfold resolveSyllabusId
      rw [if_pos hsid]
    rcases saveFormData_request_spec a r st dom req h with ⟨hm, hurl⟩
    rw [hres, if_pos hsid] at hm
    rw [hres, if_pos hsid] at hurl
    exact ⟨hm, hurl⟩
  · intro a st dom
    unfold saveFormData
    cases hu : st.userId with
    | none => right; rfl
    | some uid =>
      dsimp only
      split
      · right; rfl
      · split
        · right; rfl
        · left; rfl
  · intro a r st dom req hnone h
    have hres : resolveSyllabusId st (syncQuillEditors dom)
        = domSyllabusId (syncQuillEditors dom) := by
      unfold resolveSyllabusId
      rw [hnone]
      rfl
    rcases saveFormData_request_spec a r st dom req h with ⟨hm, _⟩
    rw [hres] at hm
    by_cases ht : jsTruthy (domSyllabusId (syncQuillEditors dom)) = true
    · rw [if_pos ht] at hm
      rw [hm]
      simp [ht]
    · rw [if_neg ht] at hm
      rw [hm]
      simp [ht]

/-- Witness for C5 (amended): a create against a fresh session caches the
returned id. -/
theorem C5_create_update_cycle_witness :
    (saveFormData true (.ok (some "n1")) freshSession (titleDom "Alpha")).state.syllabusId
      = some "n1" :=
  C5_create_update_cycle.2.1 true freshSession (titleDom "Alpha") (some "n1")
    (by decide) (by decide) (by decide)

theorem alistGet_jsObjSet_self {α : Type} (l : List (String × α)) (k : String) (v : α) :
    alistGet (jsObjSet l k v) k = some v := by
  unfold jsObjSet
  split
  · rename_i hmem
    unfold alistGet
    induction l with
    | nil => simp at hmem
    | cons p t ih =>
      by_cases hp : p.1 = k
      · simp [List.find?_cons, hp]
      · simp only [List.any_cons, Bool.or_eq_true, decide_eq_true_eq] at hmem
        rcases hmem with h | h
        · exact absurd h hp
        · simpa [List.find?_cons, hp] using ih h
  · unfold alistGet
    induction l with
    | nil => simp [List.find?_cons]
    | cons p t ih =>
      rename_i hmem
      have hp : ¬ p.1 = k := by
        intro he
        exact hmem (by simp [List.any_cons, he])
      have ht : ¬ t.any (·.1 = k) := by
        intro he
        exact hmem (by simp [List.any_cons, he])
      simpa [List.find?_cons, hp] using ih ht

theorem alistGet_map_update {α : Type} (t : List (String × α)) (k k' : String) (v : α)
    (h : k' ≠ k) :
    alistGet (t.map (fun p => if p.1 = k then (k, v) else p)) k' = alistGet t k' := by
  induction t with
  | nil => rfl
  | cons p t ih =>
    show alistGet ((if p.1 = k then (k, v) else p) :: t.map (fun p => if p.1 = k then (k, v) else p)) k'
      = alistGet (p :: t) k'
    by_cases hp : p.1 = k
    · rw [if_pos hp]
      have h2 : ¬ (p.1 = k') := by rw [hp]; exact Ne.symm h
      unfold alistGet
      rw [List.find?_cons_of_neg _ (by simpa using Ne.symm h),
        List.find?_cons_of_neg _ (by simpa using h2)]
      exact ih
    · rw [if_neg hp]
      by_cases hq : p.1 = k'
      · unfold alistGet
        rw [List.find?_cons_of_pos _ (by simpa using hq),
          List.find?_cons_of_pos _ (by simpa using hq)]
      · unfold alistGet
        rw [List.find?_cons_of_neg _ (by simpa using hq),
          List.find?_cons_of_neg _ (by simpa using hq)]
        exact ih

theorem alistGet_jsObjSet_ne {α : Type} (l : List (String × α)) (k k' : String) (v : α)
    (h : k' ≠ k) : alistGet (jsObjSet l k v) k' = alistGet l k' := by
  unfold jsObjSet
  split
  · exact alistGet_map_update l k k' v h
  · unfold alistGet
    rw [List.find?_append]
    have hnone : List.find? (fun p => p.1 = k') [(k, v)] = none := by
      have : ¬ ((k, v).1 = k') := Ne.symm h
      simp [List.find?_cons, this]
    cases hf : List.find? (fun p => decide (p.1 = k')) l <;> simp [hf, hnone]

theorem foldl_collectPolicyStep_no_marker (es : List Elem) (k : String)
    (h : ∀ e ∈ es, ¬ e.policyKey = some k) :
    ∀ acc, alistGet (es.foldl collectPolicyStep acc) k = alistGet acc k := by
  induction es with
  | nil => intro acc; rfl
  | cons x t ih =>
    intro acc
    have hx : ¬ x.policyKey = some k := h x (List.mem_cons_self x t)
    have ht : ∀ e ∈ t, ¬ e.policyKey = some k := fun e he => h e (List.mem_cons_of_mem x he)
    show alistGet (t.foldl collectPolicyStep (collectPolicyStep acc x)) k = alistGet acc k
    rw [ih ht]
    unfold collectPolicyStep
    cases hpk : x.policyKey with
    | none => rfl
    | some k'' =>
      have hne : k ≠ k'' := by
        intro he
        exact hx (by rw [hpk, he])
      dsimp only
      split
      · exact alistGet_jsObjSet_ne acc k'' k (jsTrim x.value) hne
      · rfl

theorem collectPolicies_get_marker (es : List Elem) (k : String) (hk : k ≠ "")
    (hWF : ∀ e ∈ es, ∀ k', e.policyKey = some k' → e.id = k')
    (hND : (es.map (·.id)).Nodup)
    (e : Elem) (he : e ∈ es) (hek : e.policyKey = some k) :
    ∀ acc, alistGet (es.foldl collectPolicyStep acc) k = some (jsTrim e.value) := by
  induction es with
  | nil => cases he
  | cons x t ih =>
    intro acc
    rcases List.mem_cons.mp he with rfl | hmem
    · have hnone : ∀ y ∈ t, ¬ y.policyKey = some k := by
        intro y hy hyk
        have hyid : y.id = k := hWF y (List.mem_cons_of_mem e hy) k hyk
        have heid : e.id = k := hWF e (List.mem_cons_self e t) k hek
        have hND' := hND
        rw [List.map_cons, List.nodup_cons] at hND'
        exact hND'.1 (by rw [heid, ← hyid]; exact List.mem_map_of_mem _ hy)
      show alistGet (t.foldl collectPolicyStep (collectPolicyStep acc e)) k = _
      rw [foldl_collectPolicyStep_no_marker t k hnone]
      unfold collectPolicyStep
      rw [hek]
      dsimp only
      rw [if_pos hk]
      exact alistGet_jsObjSet_self acc k (jsTrim e.value)
    · have hWFt : ∀ y ∈ t, ∀ k', y.policyKey = some k' → y.id = k' :=
        fun y hy => hWF y (List.mem_cons_of_mem x hy)
      have hNDt : (t.map (·.id)).Nodup := by
        have hND' := hND
        rw [List.map_cons, List.nodup_cons] at hND'
        exact hND'.2
      exact ih hWFt hNDt hmem (collectPolicyStep acc x)

theorem policySim_refl (es : List Elem) : List.Forall₂ PolicySim es es := by
  induction es with
  | nil => exact List.Forall₂.nil
  | cons e t ih => exact List.Forall₂.cons ⟨rfl, rfl, fun _ _ _ => rfl⟩ ih

theorem collectPolicies_congr_aux (es1 es2 : List Elem)
    (h : List.Forall₂ PolicySim es1 es2) :
    ∀ acc, es2.foldl collectPolicyStep acc = es1.foldl collectPolicyStep acc := by
  induction h with
  | nil => intro acc; rfl
  | cons ha hl ih =>
    intro acc
    rename_i a b t1 t2
    show t2.foldl collectPolicyStep (collectPolicyStep acc b)
      = t1.foldl collectPolicyStep (collectPolicyStep acc a)
    have hstep : collectPolicyStep acc b = collectPolicyStep acc a := by
      unfold collectPolicyStep
      rw [ha.2.1]
      cases hpk : a.policyKey with
      | none => rfl
      | some k =>
        dsimp only
        by_cases hk : k ≠ ""
        · rw [if_pos hk, if_pos hk, ha.2.2 k hpk hk]
        · rw [if_neg hk, if_neg hk]
    rw [hstep, ih]

theorem collectPolicies_congr (es1 es2 : List Elem)
    (h : List.Forall₂ PolicySim es1 es2) :
    collectPolicies es2 = collectPolicies es1 :=
  collectPolicies_congr_aux es1 es2 h []

theorem setElementValue_policySim (elems1 : List Elem)
    (hWF : ∀ e ∈ elems1, ∀ k', e.policyKey = some k' → e.id = k')
    (hND : (elems1.map (·.id)).Nodup) (k : String) :
    ∀ (sub1 sub2 : List Elem), List.Forall₂ PolicySim sub1 sub2 →
    (∀ e ∈ sub1, e ∈ elems1) →
    List.Forall₂ PolicySim sub1
      (setElementValue sub2 k (populateFormPolicyValue (collectPolicies elems1) k)) := by
  intro sub1 sub2 h
  induction h with
  | nil => intro _; exact List.Forall₂.nil
  | cons ha hl ih =>
    intro hmem
    rename_i a b t1 t2
    show List.Forall₂ PolicySim (a :: t1)
      (setElementValue (b :: t2) k (populateFormPolicyValue (collectPolicies elems1) k))
    unfold setElementValue
    by_cases hb : b.id = k
    · rw [if_pos hb]
      refine List.Forall₂.cons ⟨ha.1, ha.2.1, ?_⟩ hl
      intro k' hk' hne
      have haid : a.id = k' := hWF a (hmem a (List.mem_cons_self a t1)) k' hk'
      have hkk : k = k' := by rw [← hb, ha.1, haid]
      subst hkk
      have hget : alistGet (collectPolicies elems1) k = some (jsTrim a.value) :=
        collectPolicies_get_marker elems1 k hne hWF hND a
          (hmem a (List.mem_cons_self a t1)) hk' []
      show jsTrim (populateFormPolicyValue (collectPolicies elems1) k) = jsTrim a.value
      unfold populateFormPolicyValue
      rw [hget, Option.getD_some, jsTrim_idem]
    · rw [if_neg hb]
      exact List.Forall₂.cons ha
        (ih (fun e he => hmem e (List.mem_cons_of_mem a he)))

theorem foldl_policyWrites_policySim (elems1 : List Elem)
    (hWF : ∀ e ∈ elems1, ∀ k', e.policyKey = some k' → e.id = k')
    (hND : (elems1.map (·.id)).Nodup) (ks : List String) :
    ∀ es', List.Forall₂ PolicySim elems1 es' →
    List.Forall₂ PolicySim elems1
      (ks.foldl
        (fun es k => setElementValue es k (populateFormPolicyValue (collectPolicies elems1) k))
        es') := by
  induction ks with
  | nil => intro es' h; exact h
  | cons k t ih =>
    intro es' h
    exact ih _ (setElementValue_policySim elems1 hWF hND k elems1 es' h (fun e he => he))

theorem getValueById_setElementValue_ne (es : List Elem) (f k v : String) (hfk : f ≠ k) :
    getValueById (setElementValue es k v) f = getValueById es f := by
  induction es with
  | nil => rfl
  | cons e t ih =>
    unfold setElementValue
    by_cases he : e.id = k
    · rw [if_pos he]
      have hef : ¬ e.id = f := by rw [he]; exact Ne.symm hfk
      unfold getValueById
      rw [List.find?_cons_of_neg _ (by simpa using hef),
        List.find?_cons_of_neg _ (by simpa using hef)]
    · rw [if_neg he]
      by_cases hef : e.id = f
      · unfold getValueById
        rw [List.find?_cons_of_pos _ (by simpa using hef),
          List.find?_cons_of_pos _ (by simpa using hef)]
      · unfold getValueById
        rw [List.find?_cons_of_neg _ (by simpa using hef),
          List.find?_cons_of_neg _ (by simpa using hef)]
        exact ih

theorem getValueById_foldl_writes (ks : List String) (g : String → String) (f : String)
    (hf : ¬ f ∈ ks) :
    ∀ es, getValueById (ks.foldl (fun es k => setElementValue es k (g k)) es) f
      = getValueById es f := by
  induction ks with
  | nil => intro es; rfl
  | cons k t ih =>
    intro es
    have hfk : f ≠ k := fun he => hf (he ▸ List.mem_cons_self k t)
    have hft : ¬ f ∈ t := fun he => hf (List.mem_cons_of_mem k he)
    show getValueById (t.foldl _ (setElementValue es k (g k))) f = getValueById es f
    rw [ih hft, getValueById_setElementValue_ne es f k (g k) hfk]

theorem foldl_setElementValue_self (fields : List String) (g : String → String) :
    ∀ es, (∀ f ∈ fields, g f = getValueById es f) →
    fields.foldl (fun es' f => setElementValue es' f (g f)) es = es := by
  induction fields with
  | nil => intro es _; rfl
  | cons f t ih =>
    intro es h
    show t.foldl _ (setElementValue es f (g f)) = es
    rw [h f (List.mem_cons_self f t), setElementValue_getValueById]
    exact ih es (fun f' hf' => h f' (List.mem_cons_of_mem f hf'))

theorem populateScalarFields_collect (dom1 : Dom) :
    populateScalarFields dom1.elems (collectFormData dom1) = dom1.elems := by
  apply foldl_setElementValue_self
  intro f hf
  fin_cases hf <;> rfl

theorem collectInstructors_populateFrom (l : List Instructor) :
    ∀ n, collectInstructors n (populateInstructorsFrom n l) = l.map trimInstructor := by
  induction l with
  | nil => intro n; rfl
  | cons i t ih =>
    intro n
    show collectInstructorAt _ n :: collectInstructors (n + 1) (populateInstructorsFrom (n + 1) t)
      = trimInstructor i :: t.map trimInstructor
    rw [ih (n + 1)]
    unfold collectInstructorAt
    rw [if_pos rfl]
    rfl

theorem trimInstructor_collectInstructorAt (d : InstructorDiv) (idx : Nat) :
    trimInstructor (collectInstructorAt d idx) = collectInstructorAt d idx := by
  unfold collectInstructorAt
  split
  · unfold trimInstructor
    simp only [jsTrim_idem]
  · rfl

theorem map_trim_collectInstructors (divs : List InstructorDiv) :
    ∀ n, (collectInstructors n divs).map trimInstructor = collectInstructors n divs := by
  induction divs with
  | nil => intro n; rfl
  | cons d t ih =>
    intro n
    show trimInstructor (collectInstructorAt d n) :: (collectInstructors (n + 1) t).map trimInstructor
      = collectInstructorAt d n :: collectInstructors (n + 1) t
    rw [trimInstructor_collectInstructorAt, ih (n + 1)]

theorem setElementValue_map_pair (es : List Elem) (k v : String) :
    (setElementValue es k v).map (fun e => (e.id, e.policyKey))
      = es.map (fun e => (e.id, e.policyKey)) := by
  induction es with
  | nil => rfl
  | cons e t ih =>
    unfold setElementValue
    by_cases he : e.id = k
    · rw [if_pos he]
      rfl
    · rw [if_neg he]
      show _ :: _ = _ :: _
      rw [ih]

theorem foldl_writes_map_pair (ks : List String) (g : String → String) :
    ∀ es, ((ks.foldl (fun es k => setElementValue es k (g k)) es).map
        (fun e => (e.id, e.policyKey)))
      = es.map (fun e => (e.id, e.policyKey)) := by
  induction ks with
  | nil => intro es; rfl
  | cons k t ih =>
    intro es
    show ((t.foldl _ (setElementValue es k (g k))).map _) = _
    rw [ih, setElementValue_map_pair]

theorem populateForm_elems_eq (fd : FormData) (dom : Dom) :
    (populateForm fd dom).elems
      = populatePolicyFields (populateScalarFields dom.elems fd) fd.policiesAndServices := by
  simp only [populateForm, populateProgramAndSLOs, updateLearningOutcomesAndAssessments]

theorem populateForm_elems_pair_map (fd : FormData) (dom : Dom) :
    (populateForm fd dom).elems.map (fun e => (e.id, e.policyKey))
      = dom.elems.map (fun e => (e.id, e.policyKey)) := by
  rw [populateForm_elems_eq]
  unfold populatePolicyFields populateScalarFields
  rw [foldl_writes_map_pair, foldl_writes_map_pair]

theorem wf_of_pair_map_eq (es es' : List Elem)
    (h : es'.map (fun e => (e.id, e.policyKey)) = es.map (fun e => (e.id, e.policyKey)))
    (hWF : ∀ e ∈ es, ∀ k, e.policyKey = some k → e.id = k) :
    ∀ e ∈ es', ∀ k, e.policyKey = some k → e.id = k := by
  intro e' he' k hk
  have : (e'.id, e'.policyKey) ∈ es.map (fun e => (e.id, e.policyKey)) := by
    rw [← h]
    exact List.mem_map_of_mem _ he'
  rcases List.mem_map.mp this with ⟨e, he, heq⟩
  have h1 : e.id = e'.id := congrArg Prod.fst heq
  have h2 : e.policyKey = e'.policyKey := congrArg Prod.snd heq
  rw [← h1]
  exact hWF e he k (by rw [h2, hk])

theorem nodup_of_pair_map_eq (es es' : List Elem)
    (h : es'.map (fun e => (e.id, e.policyKey)) = es.map (fun e => (e.id, e.policyKey)))
    (hND : (es.map (·.id)).Nodup) : (es'.map (·.id)).Nodup := by
  have hcomp : es'.map (·.id)
      = (es'.map (fun e => (e.id, e.policyKey))).map Prod.fst := by
    rw [List.map_map]
    rfl
  rw [hcomp, h, List.map_map]
  exact hND

theorem populateForm_instructorDivs_eq (fd : FormData) (dom : Dom) :
    (populateForm fd dom).instructorDivs = populateInstructors fd.instructors := by
  simp only [populateForm, populateProgramAndSLOs, updateLearningOutcomesAndAssessments]

theorem generalFields_not_policyKeys : ∀ f ∈ generalFields, ¬ f ∈ policyKeys := by
  decide

/-- Stability of one populate/assemble cycle: populating any well-formed DOM
from its own assembled document and assembling again gives the same document.
-/
theorem populate_collect_stable (dom1 : Dom)
    (hWF : ∀ e ∈ dom1.elems, ∀ k, e.policyKey = some k → e.id = k)
    (hND : (dom1.elems.map (·.id)).Nodup) :
    collectFormData (populateForm (collectFormData dom1) dom1) = collectFormData dom1 := by
  have helems : (populateForm (collectFormData dom1) dom1).elems
      = populatePolicyFields dom1.elems (collectPolicies dom1.elems) := by
    rw [populateForm_elems_eq, populateScalarFields_collect]
    rfl
  have hsim : List.Forall₂ PolicySim dom1.elems
      (populateForm (collectFormData dom1) dom1).elems := by
    rw [helems]
    exact foldl_policyWrites_policySim dom1.elems hWF hND policyKeys dom1.elems
      (policySim_refl dom1.elems)
  have hpol : collectPolicies (populateForm (collectFormData dom1) dom1).elems
      = collectPolicies dom1.elems :=
    collectPolicies_congr dom1.elems _ hsim
  have hsc : ∀ f ∈ generalFields,
      getValueById (populateForm (collectFormData dom1) dom1).elems f
        = getValueById dom1.elems f := by
    intro f hf
    rw [helems]
    exact getValueById_foldl_writes policyKeys _ f (generalFields_not_policyKeys f hf)
      dom1.elems
  have hinstr : collectInstructors 0 (populateForm (collectFormData dom1) dom1).instructorDivs
      = collectInstructors 0 dom1.instructorDivs := by
    rw [populateForm_instructorDivs_eq]
    show collectInstructors 0
        (populateInstructorsFrom 0 (collectInstructors 0 dom1.instructorDivs))
      = collectInstructors 0 dom1.instructorDivs
    rw [collectInstructors_populateFrom, map_trim_collectInstructors]
  show collectFormData _ = collectFormData _
  unfold collectFormData
  simp only [FormData.mk.injEq]
  refine ⟨hsc "programSelect" (by decide), hsc "courseTitle" (by decide),
    hsc "courseNumber" (by decide), hsc "credits" (by decide), hsc "placement" (by decide),
    hsc "courseType" (by decide), hsc "courseDelivery" (by decide),
    hsc "courseLead" (by decide), hsc "leadEmail" (by decide), hsc "leadPhone" (by decide),
    hsc "leadOffice" (by decide), hsc "leadOfficeHours" (by decide),
    hsc "courseReqs" (by decide), hsc "courseDescription" (by decide),
    hsc "requiredMaterials" (by decide), hsc "instructionalMethods" (by decide),
    hsc "courseCommunications" (by decide), hinstr, trivial, trivial, trivial, trivial,
    trivial, trivial, hpol, trivial⟩

/-! ## Claim C1 -/

/-- C1: populating any well-formed DOM from a document with no
program-undefined keys and assembling gives a document `D'` such that
populating from `D'` and assembling again returns exactly `D'`. -/
theorem C1_populate_assemble_roundtrip :
    ∀ (D : FormData) (dom : Dom), WellformedDom dom →
    (∀ p ∈ D.policiesAndServices, p.1 ∈ policyKeys) →
    collectFormData
        (populateForm (collectFormData (populateForm D dom)) (populateForm D dom))
      = collectFormData (populateForm D dom) := by
  intro D dom hwf _
  have hmap := populateForm_elems_pair_map D dom
  exact populate_collect_stable (populateForm D dom)
    (wf_of_pair_map_eq dom.elems _ hmap hwf.1)
    (nodup_of_pair_map_eq dom.elems _ hmap hwf.2)

/-- Witness for C1 at the concrete document and DOM above. -/
theorem C1_populate_assemble_roundtrip_witness :
    collectFormData
        (populateForm (collectFormData (populateForm c1doc c1dom)) (populateForm c1doc c1dom))
      = collectFormData (populateForm c1doc c1dom) := by
  apply C1_populate_assemble_roundtrip c1doc c1dom
  · refine ⟨?_, by decide⟩
    intro e he k hk
    fin_cases he
    · exact absurd hk (by simp)
    · injection hk with h
      try rw [← h]
  · intro p hp
    fin_cases hp
    decide

